import Mathlib

/-!
Verification of the ATM-simulator account core (models layer).

This file is a shallow embedding in Lean 4 of the C++ sources under
src/src/models: Account, OperationResult, LoginResult, the JSON account
repository, AccountValidator, AccountService, TransactionModel and
AccountAnalyticsService.  Modelling conventions:

* C++ `double` amounts are modelled as exact rationals.  All the
  properties proved here are about control flow and exact arithmetic and
  do not depend on floating-point rounding.
* `QDateTime` is modelled as an integer count of seconds; an invalid
  (default-constructed) `QDateTime` is `none`.  `QDate` is the integer
  day index `seconds / 86400` (floor).
* SHA-256 (`QCryptographicHash`) is abstracted by the injective pairing
  `pin ++ "#" ++ salt`; the claims only use that the hash is a
  deterministic function of pin and salt, never collision behaviour.
* The random salt source (`QRandomGenerator`) is abstracted by passing
  the generated salt as an explicit argument.
* File persistence (`JsonPersistenceManager::saveToFile`) is abstracted
  by a `diskOk` flag on the repository state: when the flag is false the
  file write fails but, as in the C++ code, the in-memory map keeps the
  attempted change.
* Stateful C++ methods become explicit state-passing functions.
-/

/- Batteries marks rational arithmetic irreducible for the elaborator;
restore default reducibility locally so that concrete program states
can be evaluated by `decide` (the kernel itself is unaffected). -/
attribute [local semireducible] Rat.sub Rat.add Rat.mul Rat.inv

namespace ATM

/-- Transaction type enumeration (TransactionModel.h). -/
inductive TransactionType where
  | Deposit
  | Withdrawal
  | BalanceInquiry
  | Transfer
  | Other
deriving Repr, DecidableEq

/-- Transaction record (TransactionModel.h).  The C++ field `type` is
named `type` here as well; `timestamp` is seconds. -/
structure Transaction where
  cardNumber : String
  timestamp : Int
  type : TransactionType
  amount : ℚ
  balanceAfter : ℚ
  description : String
  targetCardNumber : String
deriving Repr, DecidableEq

/-- Day index of a timestamp, modelling QDateTime::date(). -/
def txDate (t : Int) : Int := Int.ediv t 86400

/-- Operation result (OperationResult.h). -/
structure OperationResult where
  success : Bool
  errorMessage : String
deriving Repr, DecidableEq

/-- OperationResult::Success(). -/
def OperationResult.Success : OperationResult := ⟨true, ""⟩

/-- OperationResult::Failure(error). -/
def OperationResult.Failure (error : String) : OperationResult := ⟨false, error⟩

/-- Login result (LoginResult.h). -/
structure LoginResult where
  success : Bool
  errorMessage : String
  isAdmin : Bool
  holderName : String
  balance : ℚ
  withdrawLimit : ℚ
deriving Repr, DecidableEq

/-- LoginResult::Success(isAdmin, holderName, balance, withdrawLimit). -/
def LoginResult.Success (isAdmin : Bool) (holderName : String)
    (balance withdrawLimit : ℚ) : LoginResult :=
  ⟨true, "", isAdmin, holderName, balance, withdrawLimit⟩

/-- LoginResult::Failure(error). -/
def LoginResult.Failure (error : String) : LoginResult :=
  ⟨false, error, false, "", 0, 0⟩

/-- Account entity (Account.h).  Default values model C++ default
construction; numeric members that C++ leaves uninitialized are taken
to be zero (no claim depends on them before assignment). -/
structure Account where
  cardNumber : String := ""
  pinHash : String := ""
  salt : String := ""
  holderName : String := ""
  balance : ℚ := 0
  withdrawLimit : ℚ := 0
  isLocked : Bool := false
  isAdmin : Bool := false
  failedLoginAttempts : Int := 0
  lastFailedLogin : Option Int := none
  temporaryLockTime : Option Int := none
deriving Repr, DecidableEq

namespace Account

/-- Account::MAX_FAILED_ATTEMPTS. -/
def MAX_FAILED_ATTEMPTS : Int := 3

/-- Account::TEMP_LOCK_DURATION, in minutes. -/
def TEMP_LOCK_DURATION : Int := 15

/-- Account::isValidCardNumber(cardNumber): 16 digits (the QChar loop
is modelled over the character list). -/
def isValidCardNumber (cardNumber : String) : Bool :=
  cardNumber.length == 16 && cardNumber.data.all Char.isDigit

/-- Account::isValidPin(pin): 4 to 6 digits (the QChar loop is
modelled over the character list). -/
def isValidPin (pin : String) : Bool :=
  4 ≤ pin.length && pin.length ≤ 6 && pin.data.all Char.isDigit

/-- Account::isValid(): card format, non-empty holder name, and
balance and withdraw limit both non-negative (the source line is
`if (balance < 0 || withdrawLimit < 0) return false;`). -/
def isValid (a : Account) : Bool :=
  isValidCardNumber a.cardNumber && !a.holderName.isEmpty &&
    !(a.balance < 0 || a.withdrawLimit < 0)

/-- Account::hashPin(pin, salt).  SHA-256 of (pin + salt) is abstracted
by an injective pairing of pin and salt. -/
def hashPin (pin salt : String) : String := pin ++ "#" ++ salt

/-- Account::verifyPin(pin). -/
def verifyPin (a : Account) (pin : String) : Bool :=
  hashPin pin a.salt == a.pinHash

/-- Account::setPin(pin); the freshly generated salt is passed
explicitly (generateSalt is a random source). -/
def setPin (a : Account) (pin freshSalt : String) : Account :=
  if isValidPin pin then
    { a with salt := freshSalt, pinHash := hashPin pin freshSalt }
  else a

/-- Account::recordFailedLogin() at time `now`; returns the updated
account and whether the temporary lock was triggered. -/
def recordFailedLogin (a : Account) (now : Int) : Account × Bool :=
  let a1 := { a with failedLoginAttempts := a.failedLoginAttempts + 1,
                     lastFailedLogin := some now }
  if a1.failedLoginAttempts ≥ MAX_FAILED_ATTEMPTS then
    ({ a1 with temporaryLockTime := some (now + TEMP_LOCK_DURATION * 60) }, true)
  else
    (a1, false)

/-- Account::resetFailedLoginAttempts(). -/
def resetFailedLoginAttempts (a : Account) : Account :=
  { a with failedLoginAttempts := 0, temporaryLockTime := none }

/-- Account::isTemporarilyLocked() at time `now`. -/
def isTemporarilyLocked (a : Account) (now : Int) : Bool :=
  match a.temporaryLockTime with
  | none => false
  | some t => now < t

end Account

/-- In-memory repository state (JsonAccountRepository).  `accounts`
models the QMap from card number to account (keys are the stored
accounts' card numbers); `diskOk` abstracts whether file writes
succeed. -/
structure RepoState where
  accounts : List Account
  diskOk : Bool
deriving Repr, DecidableEq

/-- JsonAccountRepository::findByCardNumber. -/
def findByCardNumber (st : RepoState) (cardNumber : String) : Option Account :=
  st.accounts.find? (fun a => a.cardNumber == cardNumber)

/-- JsonAccountRepository::accountExists. -/
def accountExists (st : RepoState) (cardNumber : String) : Bool :=
  (findByCardNumber st cardNumber).isSome

/-- QMap insertion `m_accounts[account.cardNumber] = account`: replace
the entry with the same key if present, otherwise add the account. -/
def insertAccount (l : List Account) (a : Account) : List Account :=
  if l.any (fun b => b.cardNumber == a.cardNumber) then
    l.map (fun b => if b.cardNumber == a.cardNumber then a else b)
  else l ++ [a]

/-- JsonAccountRepository::saveAccount: reject invalid accounts without
touching the map; otherwise update the map and report the file-write
outcome (on a failed write the in-memory map keeps the change). -/
def saveAccount (st : RepoState) (a : Account) : RepoState × OperationResult :=
  if !a.isValid then (st, OperationResult.Failure "账户数据无效")
  else
    let st' : RepoState := { st with accounts := insertAccount st.accounts a }
    if st.diskOk then (st', OperationResult.Success)
    else (st', OperationResult.Failure "无法保存账户数据")

/-- The distinguished administrator card number. -/
def adminCardNumber : String := "9999888877776666"

/-- The administrator account JsonAccountRepository::loadAccounts
creates when it is missing (fresh salt passed explicitly). -/
def defaultAdminAccount (freshSalt : String) : Account :=
  Account.setPin
    { cardNumber := adminCardNumber
      holderName := "管理员"
      balance := 50000
      withdrawLimit := 10000
      isLocked := false
      isAdmin := true }
    "8888" freshSalt

/-- JsonAccountRepository::loadAccounts, from the successfully parsed
JSON array (each element already converted by Account::fromJson): build
the map, then create the administrator account if it is absent. -/
def loadAccounts (parsed : List Account) (freshSalt : String) : List Account :=
  let base := parsed.foldl (fun l a => insertAccount l a) []
  if (base.find? (fun a => a.cardNumber == adminCardNumber)).isSome then base
  else insertAccount base (defaultAdminAccount freshSalt)

/-! Validator (AccountValidator.cpp).  All checks except
validateCredentials are read-only; validateCredentials updates the
failed-login counters through the repository and therefore returns the
new repository state as well. -/

/-- Message QString("由于多次登录失败，账户已临时锁定，请%1分钟后再试").arg(15). -/
def tempLockedMsg : String := "由于多次登录失败，账户已临时锁定，请15分钟后再试"

/-- Message for the failure that triggers the temporary lock. -/
def pinErrorLockedMsg : String :=
  "PIN码错误，由于多次登录失败，账户已临时锁定，请15分钟后再试"

/-- QString::arg on a numeric value, abstracted by toString. -/
def fmtQ (q : ℚ) : String := toString q

/-- AccountValidator::validateCardNumberFormat. -/
def validateCardNumberFormat (cardNumber : String) : OperationResult :=
  if !Account.isValidCardNumber cardNumber then
    OperationResult.Failure "卡号格式无效，必须为16位数字"
  else OperationResult.Success

/-- AccountValidator::validatePinFormat. -/
def validatePinFormat (pin : String) : OperationResult :=
  if !Account.isValidPin pin then
    OperationResult.Failure "PIN码格式无效，必须为4-6位数字"
  else OperationResult.Success

/-- AccountValidator::validateAccountExists. -/
def validateAccountExists (st : RepoState) (cardNumber : String) : OperationResult :=
  if cardNumber.isEmpty then OperationResult.Failure "卡号不能为空"
  else if !accountExists st cardNumber then OperationResult.Failure "账户不存在"
  else OperationResult.Success

/-- AccountValidator::validateAccountNotLocked at time `now`. -/
def validateAccountNotLocked (now : Int) (st : RepoState) (cardNumber : String) :
    OperationResult :=
  let existResult := validateAccountExists st cardNumber
  if !existResult.success then existResult
  else
    match findByCardNumber st cardNumber with
    | none => existResult
    | some account =>
      if account.isLocked then OperationResult.Failure "账户已锁定"
      else if account.isTemporarilyLocked now then
        OperationResult.Failure tempLockedMsg
      else OperationResult.Success

/-- AccountValidator::validateSufficientBalance. -/
def validateSufficientBalance (st : RepoState) (cardNumber : String) (amount : ℚ) :
    OperationResult :=
  let existResult := validateAccountExists st cardNumber
  if !existResult.success then existResult
  else
    match findByCardNumber st cardNumber with
    | none => existResult
    | some account =>
      if amount > account.balance then OperationResult.Failure "余额不足"
      else OperationResult.Success

/-- AccountValidator::validateWithdrawLimit. -/
def validateWithdrawLimit (st : RepoState) (cardNumber : String) (amount : ℚ) :
    OperationResult :=
  let existResult := validateAccountExists st cardNumber
  if !existResult.success then existResult
  else
    match findByCardNumber st cardNumber with
    | none => existResult
    | some account =>
      if amount > account.withdrawLimit then
        OperationResult.Failure ("超出单次取款限额 " ++ fmtQ account.withdrawLimit)
      else OperationResult.Success

/-- AccountValidator::validateOperation: first failure wins (the C++
steps are lambdas over pure checks, so eager evaluation agrees). -/
def validateOperation : List OperationResult → OperationResult
  | [] => OperationResult.Success
  | r :: rs => if r.success then validateOperation rs else r

/-- AccountValidator::validateWithdrawal.  The declared
validateAmountMultipleOf100 is never defined or called in the source,
so no multiple-of-100 step appears here. -/
def validateWithdrawal (now : Int) (st : RepoState) (cardNumber : String)
    (amount : ℚ) : OperationResult :=
  if cardNumber.isEmpty then OperationResult.Failure "请先登录"
  else if amount ≤ 0 then OperationResult.Failure "取款金额必须为正数"
  else
    validateOperation
      [validateAccountExists st cardNumber,
       validateAccountNotLocked now st cardNumber,
       validateWithdrawLimit st cardNumber amount,
       validateSufficientBalance st cardNumber amount]

/-- AccountValidator::validateDeposit (single-deposit ceiling 1000000). -/
def validateDeposit (now : Int) (st : RepoState) (cardNumber : String)
    (amount : ℚ) : OperationResult :=
  if cardNumber.isEmpty then OperationResult.Failure "请先登录"
  else if amount ≤ 0 then OperationResult.Failure "存款金额必须为正数"
  else
    validateOperation
      [validateAccountExists st cardNumber,
       validateAccountNotLocked now st cardNumber,
       (if amount > 1000000 then
          OperationResult.Failure ("单次存款不能超过 " ++ fmtQ 1000000)
        else OperationResult.Success)]

/-- AccountValidator::validateTransfer. -/
def validateTransfer (now : Int) (st : RepoState)
    (fromCardNumber toCardNumber : String) (amount : ℚ) : OperationResult :=
  if fromCardNumber.isEmpty then OperationResult.Failure "请先登录"
  else if toCardNumber.isEmpty then OperationResult.Failure "请输入目标卡号"
  else if amount ≤ 0 then OperationResult.Failure "转账金额必须为正数"
  else
    validateOperation
      [(if fromCardNumber == toCardNumber then
          OperationResult.Failure "源卡号和目标卡号不能相同"
        else OperationResult.Success),
       validateAccountExists st fromCardNumber,
       validateAccountNotLocked now st fromCardNumber,
       validateAccountExists st toCardNumber,
       validateAccountNotLocked now st toCardNumber,
       validateSufficientBalance st fromCardNumber amount,
       (if amount > 1000000 then
          OperationResult.Failure ("单次转账不能超过 " ++ fmtQ 1000000)
        else OperationResult.Success)]

/-- AccountValidator::validateCredentials at time `now`.  On a PIN
mismatch the failed-login counter is recorded and saved through the
repository; on a match with a positive counter the counter is reset and
saved.  Returns the updated repository state and the result. -/
def validateCredentials (now : Int) (st : RepoState) (cardNumber pin : String) :
    RepoState × OperationResult :=
  if cardNumber.isEmpty then (st, OperationResult.Failure "请输入卡号")
  else if pin.isEmpty then (st, OperationResult.Failure "请输入PIN码")
  else
    let cardNumberResult := validateCardNumberFormat cardNumber
    if !cardNumberResult.success then (st, cardNumberResult)
    else
      match findByCardNumber st cardNumber with
      | none => (st, OperationResult.Failure "卡号或PIN码错误")
      | some account =>
        if account.isLocked then
          (st, OperationResult.Failure "该账户已被锁定，请联系管理员")
        else if account.isTemporarilyLocked now then
          (st, OperationResult.Failure tempLockedMsg)
        else if !account.verifyPin pin then
          let rec_ := account.recordFailedLogin now
          let st' := (saveAccount st rec_.1).1
          if rec_.2 then (st', OperationResult.Failure pinErrorLockedMsg)
          else
            (st', OperationResult.Failure
              ("卡号或PIN码错误，剩余尝试次数: " ++
                toString (Account.MAX_FAILED_ATTEMPTS - rec_.1.failedLoginAttempts)))
        else if account.failedLoginAttempts > 0 then
          let st' := (saveAccount st account.resetFailedLoginAttempts).1
          (st', OperationResult.Success)
        else (st, OperationResult.Success)

/-- AccountValidator::validatePinChange at time `now` (mutating, via
validateCredentials).  The later steps re-fetch the account from the
repository state produced by the credentials check. -/
def validatePinChange (now : Int) (st : RepoState)
    (cardNumber currentPin newPin confirmPin : String) :
    RepoState × OperationResult :=
  let credStep := validateCredentials now st cardNumber currentPin
  if !credStep.2.success then credStep
  else
    match findByCardNumber credStep.1 cardNumber with
    | none => (credStep.1, OperationResult.Failure "账户不存在")
    | some account =>
      if !Account.isValidPin newPin then
        (credStep.1, OperationResult.Failure "新PIN码格式无效，必须为4-6位数字")
      else if !confirmPin.isEmpty && newPin != confirmPin then
        (credStep.1, OperationResult.Failure "两次输入的新PIN码不匹配")
      else if account.verifyPin newPin then
        (credStep.1, OperationResult.Failure "新PIN码不能与当前PIN码相同")
      else (credStep.1, OperationResult.Success)

/-! Service layer (AccountService.cpp) over the repository plus the
transaction ledger (TransactionModel). -/

/-- Combined state: repository plus the append-only ledger
(TransactionModel::m_transactions). -/
structure AtmState where
  repo : RepoState
  ledger : List Transaction
deriving Repr, DecidableEq

/-- TransactionModel::recordTransaction via createTransaction and
addTransaction: append one record stamped `now`. -/
def recordTransaction (now : Int) (st : AtmState) (cardNumber : String)
    (type : TransactionType) (amount balanceAfter : ℚ)
    (description targetCard : String) : AtmState :=
  { st with ledger := st.ledger ++
      [⟨cardNumber, now, type, amount, balanceAfter, description, targetCard⟩] }

/-- TransactionModel::getTransactionsForCard. -/
def getTransactionsForCard (ledger : List Transaction) (cardNumber : String) :
    List Transaction :=
  ledger.filter (fun tx => tx.cardNumber == cardNumber)

/-- AccountService::performLogin.  The m_transactionModel null check is
dropped: the model always has a ledger.  The lookup after a successful
credentials check cannot miss; the impossible branch returns a failure
that is never reached. -/
def performLogin (now : Int) (st : AtmState) (cardNumber pin : String) :
    AtmState × LoginResult :=
  let v := validateCredentials now st.repo cardNumber pin
  let st1 : AtmState := { st with repo := v.1 }
  if !v.2.success then (st1, LoginResult.Failure v.2.errorMessage)
  else
    match findByCardNumber v.1 cardNumber with
    | none => (st1, LoginResult.Failure "")
    | some account =>
      let st2 := recordTransaction now st1 cardNumber TransactionType.Other 0
        account.balance "用户登录" ""
      (st2, LoginResult.Success account.isAdmin account.holderName
        account.balance account.withdrawLimit)

/-- AccountService::withdrawAmount. -/
def withdrawAmount (now : Int) (st : AtmState) (cardNumber : String)
    (amount : ℚ) : AtmState × OperationResult :=
  let v := validateWithdrawal now st.repo cardNumber amount
  if !v.success then (st, v)
  else
    match findByCardNumber st.repo cardNumber with
    | none => (st, v)
    | some account0 =>
      let account := { account0 with balance := account0.balance - amount }
      let saved := saveAccount st.repo account
      if !saved.2.success then ({ st with repo := saved.1 }, saved.2)
      else
        let st2 := recordTransaction now { st with repo := saved.1 } cardNumber
          TransactionType.Withdrawal amount account.balance "取款" ""
        (st2, OperationResult.Success)

/-- AccountService::depositAmount. -/
def depositAmount (now : Int) (st : AtmState) (cardNumber : String)
    (amount : ℚ) : AtmState × OperationResult :=
  let v := validateDeposit now st.repo cardNumber amount
  if !v.success then (st, v)
  else
    match findByCardNumber st.repo cardNumber with
    | none => (st, v)
    | some account0 =>
      let account := { account0 with balance := account0.balance + amount }
      let saved := saveAccount st.repo account
      if !saved.2.success then ({ st with repo := saved.1 }, saved.2)
      else
        let st2 := recordTransaction now { st with repo := saved.1 } cardNumber
          TransactionType.Deposit amount account.balance "存款" ""
        (st2, OperationResult.Success)

/-- AccountService::transferAmount, including the compensating save of
the source account when persisting the target account fails. -/
def transferAmount (now : Int) (st : AtmState)
    (fromCardNumber toCardNumber : String) (amount : ℚ) :
    AtmState × OperationResult :=
  let v := validateTransfer now st.repo fromCardNumber toCardNumber amount
  if !v.success then (st, v)
  else
    match findByCardNumber st.repo fromCardNumber,
          findByCardNumber st.repo toCardNumber with
    | some fa, some ta =>
      let fromAccount := { fa with balance := fa.balance - amount }
      let toAccount := { ta with balance := ta.balance + amount }
      let savedFrom := saveAccount st.repo fromAccount
      if !savedFrom.2.success then ({ st with repo := savedFrom.1 }, savedFrom.2)
      else
        let savedTo := saveAccount savedFrom.1 toAccount
        if !savedTo.2.success then
          let rollback := { fromAccount with balance := fromAccount.balance + amount }
          let savedRollback := saveAccount savedTo.1 rollback
          ({ st with repo := savedRollback.1 }, savedTo.2)
        else
          let st2 : AtmState := { st with repo := savedTo.1 }
          let st3 := recordTransaction now st2 fromCardNumber
            TransactionType.Transfer amount fromAccount.balance
            ("转账给 " ++ toAccount.holderName) toCardNumber
          let st4 := recordTransaction now st3 toCardNumber
            TransactionType.Deposit amount toAccount.balance
            ("来自 " ++ fromAccount.holderName ++ " 的转账") fromCardNumber
          (st4, OperationResult.Success)
    | _, _ => (st, v)

/-- AccountService::changePin.  The source line `account.pin = newPin`
assigns to a member the Account class does not declare (Account.h has
only pinHash and salt and never stores a plaintext PIN), so the stored
credentials are unchanged: pinHash and salt keep their old values and
no re-hash with a fresh salt happens. -/
def changePin (now : Int) (st : AtmState)
    (cardNumber currentPin newPin confirmPin : String) :
    AtmState × OperationResult :=
  let v := validatePinChange now st.repo cardNumber currentPin newPin confirmPin
  let st1 : AtmState := { st with repo := v.1 }
  if !v.2.success then (st1, v.2)
  else
    match findByCardNumber v.1 cardNumber with
    | none => (st1, v.2)
    | some account =>
      let saved := saveAccount v.1 account
      if !saved.2.success then ({ st with repo := saved.1 }, saved.2)
      else
        let st2 := recordTransaction now { st with repo := saved.1 } cardNumber
          TransactionType.Other 0 account.balance "修改PIN码" ""
        (st2, OperationResult.Success)

/-! Analytics (AccountAnalyticsService.cpp).  `today` models
QDate::currentDate() as a day index; the transaction model is always
present. -/

/-- Insertion sort step for std::sort by ascending timestamp. -/
def insertSortedTx (tx : Transaction) : List Transaction → List Transaction
  | [] => [tx]
  | h :: t =>
    if tx.timestamp < h.timestamp then tx :: h :: t
    else h :: insertSortedTx tx t

/-- std::sort of transactions by ascending timestamp. -/
def sortByTimestamp (l : List Transaction) : List Transaction :=
  l.foldr insertSortedTx []

/-- QMap insertion keyed by day, keeping keys sorted ascending. -/
def mapInsertDay : List (Int × ℚ) → Int → ℚ → List (Int × ℚ)
  | [], k, v => [(k, v)]
  | (k', v') :: t, k, v =>
    if k < k' then (k, v) :: (k', v') :: t
    else if k = k' then (k, v) :: t
    else (k', v') :: mapInsertDay t k v

/-- The dailyBalances reconstruction of predictBalanceWithRegression:
walk the sorted transactions newest to oldest, undoing each one from
the running balance, and record the balance on each transaction day. -/
def buildDailyBalances (sorted : List Transaction) (currentBalance : ℚ) :
    List (Int × ℚ) :=
  (sorted.reverse.foldl
    (fun acc tx =>
      let rb :=
        match tx.type with
        | TransactionType.Deposit => acc.1 - tx.amount
        | TransactionType.Withdrawal => acc.1 + tx.amount
        | TransactionType.Transfer => acc.1 + tx.amount
        | _ => acc.1
      (rb, mapInsertDay acc.2 (txDate tx.timestamp) rb))
    (currentBalance, [])).2

/-- AccountAnalyticsService::getTransactionFrequency. -/
def getTransactionFrequency (today : Int) (st : AtmState) (cardNumber : String)
    (days : Int) : ℚ :=
  if cardNumber.isEmpty || days ≤ 0 then 0
  else if !accountExists st.repo cardNumber then 0
  else
    let transactions := getTransactionsForCard st.ledger cardNumber
    if transactions.isEmpty then 0
    else
      let startDate := today - days + 1
      let c := transactions.countP (fun tx =>
        startDate ≤ txDate tx.timestamp && txDate tx.timestamp ≤ today)
      (c : ℚ) / (days : ℚ)

/-- AccountAnalyticsService::predictBalanceWithWeightedAverage: weight
recent 90-day transactions by 1/(1+daysAgo*0.05), derive weighted mean
daily income and expense, damp by transaction frequency, project
forward and floor at zero. -/
def predictBalanceWithWeightedAverage (today : Int) (st : AtmState)
    (cardNumber : String) (daysInFuture : Int) : ℚ :=
  let transactions := getTransactionsForCard st.ledger cardNumber
  if transactions.length < 2 then
    match findByCardNumber st.repo cardNumber with
    | some a => a.balance
    | none => 0
  else
    match findByCardNumber st.repo cardNumber with
    | none => 0
    | some account =>
      let sorted := sortByTimestamp transactions
      let startDate := today - 90
      let sums := sorted.foldl
        (fun (acc : ℚ × ℚ × ℚ × ℚ) tx =>
          let d := txDate tx.timestamp
          if startDate ≤ d && d ≤ today then
            let daysAgo : ℚ := ((today - d : Int) : ℚ)
            let weight : ℚ := 1 / (1 + daysAgo * (1 / 20))
            match tx.type with
            | TransactionType.Deposit =>
              (acc.1 + tx.amount * weight, acc.2.1 + weight, acc.2.2.1, acc.2.2.2)
            | TransactionType.Withdrawal =>
              (acc.1, acc.2.1, acc.2.2.1 + tx.amount * weight, acc.2.2.2 + weight)
            | TransactionType.Transfer =>
              (acc.1, acc.2.1, acc.2.2.1 + tx.amount * weight, acc.2.2.2 + weight)
            | _ => acc
          else acc)
        (0, 0, 0, 0)
      let totalIncome := sums.1
      let totalIncomeWeight := sums.2.1
      let totalExpense := sums.2.2.1
      let totalExpenseWeight := sums.2.2.2
      let dailyIncome0 :=
        if totalIncomeWeight > 0 then (totalIncome / totalIncomeWeight) / 90 else 0
      let dailyExpense0 :=
        if totalExpenseWeight > 0 then (totalExpense / totalExpenseWeight) / 90 else 0
      let frequency := getTransactionFrequency today st cardNumber 90
      let dailyIncome :=
        if frequency > 0 then dailyIncome0 * min frequency 1 else dailyIncome0
      let dailyExpense :=
        if frequency > 0 then dailyExpense0 * min frequency 1 else dailyExpense0
      let predicted := account.balance + (dailyIncome - dailyExpense) * (daysInFuture : ℚ)
      if predicted < 0 then 0 else predicted

/-- AccountAnalyticsService::calculateLinearRegression. -/
def calculateLinearRegression (xValues yValues : List ℚ) : ℚ × ℚ :=
  if xValues.length ≠ yValues.length || xValues.isEmpty then (0, 0)
  else
    let n : ℚ := (xValues.length : ℚ)
    let xMean := xValues.sum / n
    let yMean := yValues.sum / n
    let numerator := (xValues.zip yValues).foldl
      (fun s p => s + (p.1 - xMean) * (p.2 - yMean)) 0
    let denominator := xValues.foldl (fun s x => s + (x - xMean) * (x - xMean)) 0
    if denominator = 0 then (0, yMean)
    else
      let slope := numerator / denominator
      (slope, yMean - slope * xMean)

/-- AccountAnalyticsService::predictBalanceWithRegression: with fewer
than 5 transactions it returns the current balance; it falls back to
the weighted-average method only when the reconstructed daily balance
series has fewer than 2 points; otherwise it extrapolates the fitted
line and floors at zero. -/
def predictBalanceWithRegression (today : Int) (st : AtmState)
    (cardNumber : String) (daysInFuture : Int) : ℚ :=
  match findByCardNumber st.repo cardNumber with
  | none => 0
  | some account =>
    let transactions := getTransactionsForCard st.ledger cardNumber
    if transactions.length < 5 then account.balance
    else
      let sorted := sortByTimestamp transactions
      let daily := buildDailyBalances sorted account.balance
      let xValues := daily.map (fun kv => ((today - kv.1 : Int) : ℚ))
      let yValues := daily.map (fun kv => kv.2)
      if xValues.length < 2 then
        predictBalanceWithWeightedAverage today st cardNumber daysInFuture
      else
        let li := calculateLinearRegression xValues yValues
        let predicted := li.1 * (-(daysInFuture : ℚ)) + li.2
        if predicted < 0 then 0 else predicted

/-! Operation sequences for the balance-non-negativity invariant. -/

/-- A money-movement request (withdraw, deposit or transfer). -/
inductive Op where
  | withdraw (cardNumber : String) (amount : ℚ)
  | deposit (cardNumber : String) (amount : ℚ)
  | transfer (fromCardNumber toCardNumber : String) (amount : ℚ)
deriving Repr, DecidableEq

/-- Run one timed operation through the service layer. -/
def applyOp (st : AtmState) (p : Int × Op) : AtmState :=
  match p.2 with
  | Op.withdraw c amt => (withdrawAmount p.1 st c amt).1
  | Op.deposit c amt => (depositAmount p.1 st c amt).1
  | Op.transfer f t amt => (transferAmount p.1 st f t amt).1

/-- Run a sequence of timed operations. -/
def runOps (st : AtmState) (ops : List (Int × Op)) : AtmState :=
  ops.foldl applyOp st

/-- Every stored balance is non-negative. -/
def allBalancesNonneg (st : AtmState) : Prop :=
  ∀ a ∈ st.repo.accounts, 0 ≤ a.balance

/-! Helper lemmas about the repository map. -/

theorem find?_replace_self (xs : List Account) (a : Account)
    (h : xs.any (fun b => b.cardNumber == a.cardNumber) = true) :
    (xs.map (fun b => if b.cardNumber == a.cardNumber then a else b)).find?
      (fun b => b.cardNumber == a.cardNumber) = some a := by
  induction xs with
  | nil => simp at h
  | cons x xs ih =>
    simp only [List.map_cons]
    cases hx : x.cardNumber == a.cardNumber
    · have h2 : xs.any (fun b => b.cardNumber == a.cardNumber) = true := by
        rw [List.any_cons, hx, Bool.false_or] at h
        exact h
      rw [if_neg (by decide)]
      simp only [List.find?_cons, hx]
      exact ih h2
    · rw [if_pos rfl]
      simp only [List.find?_cons, beq_self_eq_true]

theorem find?_replace_other (xs : List Account) (a : Account) (c : String)
    (hc : c ≠ a.cardNumber) :
    (xs.map (fun b => if b.cardNumber == a.cardNumber then a else b)).find?
      (fun b => b.cardNumber == c) = xs.find? (fun b => b.cardNumber == c) := by
  induction xs with
  | nil => rfl
  | cons x xs ih =>
    simp only [List.map_cons]
    cases hx : x.cardNumber == a.cardNumber
    · rw [if_neg (by decide)]
      cases hxc : x.cardNumber == c
      · simp only [List.find?_cons, hxc]
        exact ih
      · simp only [List.find?_cons, hxc]
    · have hxa : x.cardNumber = a.cardNumber := beq_iff_eq.mp hx
      have h1 : (a.cardNumber == c) = false := by
        rw [beq_eq_false_iff_ne]
        exact Ne.symm hc
      have h2 : (x.cardNumber == c) = false := by rw [hxa]; exact h1
      rw [if_pos rfl]
      simp only [List.find?_cons, h1, h2]
      exact ih

theorem find?_append_single_absent (xs : List Account) (a : Account)
    (h : xs.any (fun b => b.cardNumber == a.cardNumber) = false) :
    (xs ++ [a]).find? (fun b => b.cardNumber == a.cardNumber) = some a := by
  induction xs with
  | nil =>
    simp only [List.nil_append, List.find?_cons, beq_self_eq_true]
  | cons x xs ih =>
    have h1 : (x.cardNumber == a.cardNumber) = false := by
      cases hx : x.cardNumber == a.cardNumber
      · rfl
      · rw [List.any_cons, hx, Bool.true_or] at h
        exact absurd h (by simp)
    have h2 : xs.any (fun b => b.cardNumber == a.cardNumber) = false := by
      rw [List.any_cons, h1, Bool.false_or] at h
      exact h
    rw [List.cons_append]
    simp only [List.find?_cons, h1]
    exact ih h2

theorem find?_append_single_ne (xs : List Account) (a : Account) (c : String)
    (h : (a.cardNumber == c) = false) :
    (xs ++ [a]).find? (fun b => b.cardNumber == c) =
      xs.find? (fun b => b.cardNumber == c) := by
  induction xs with
  | nil =>
    simp only [List.nil_append, List.find?_cons, h]
  | cons x xs ih =>
    rw [List.cons_append]
    cases hx : x.cardNumber == c
    · simp only [List.find?_cons, hx]
      exact ih
    · simp only [List.find?_cons, hx]

theorem find_insertAccount_self (l : List Account) (a : Account) :
    (insertAccount l a).find? (fun b => b.cardNumber == a.cardNumber) = some a := by
  unfold insertAccount
  split
  · rename_i h
    exact find?_replace_self l a h
  · rename_i h
    exact find?_append_single_absent l a (by
      cases hany : l.any (fun b => b.cardNumber == a.cardNumber)
      · rfl
      · exact absurd hany h)

theorem find_insertAccount_other (l : List Account) (a : Account) (c : String)
    (hc : c ≠ a.cardNumber) :
    (insertAccount l a).find? (fun b => b.cardNumber == c) =
      l.find? (fun b => b.cardNumber == c) := by
  unfold insertAccount
  split
  · exact find?_replace_other l a c hc
  · exact find?_append_single_ne l a c (by
      cases hac : a.cardNumber == c
      · rfl
      · exact absurd (beq_iff_eq.mp hac).symm hc)

theorem mem_insertAccount {l : List Account} {a b : Account}
    (h : b ∈ insertAccount l a) : b ∈ l ∨ b = a := by
  unfold insertAccount at h
  split at h
  · rcases List.mem_map.mp h with ⟨x, hx, hxb⟩
    by_cases hc : x.cardNumber == a.cardNumber
    · right
      rw [if_pos hc] at hxb
      exact hxb.symm
    · left
      rw [if_neg hc] at hxb
      exact hxb ▸ hx
  · rcases List.mem_append.mp h with h | h
    · exact Or.inl h
    · right
      simpa using h

theorem findByCardNumber_key {st : RepoState} {c : String} {a : Account}
    (h : findByCardNumber st c = some a) : a.cardNumber = c := by
  have := List.find?_some h
  exact beq_iff_eq.mp this

theorem findByCardNumber_mem {st : RepoState} {c : String} {a : Account}
    (h : findByCardNumber st c = some a) : a ∈ st.accounts :=
  List.mem_of_find?_eq_some h

/-! Helper lemmas about saveAccount. -/

theorem saveAccount_fst (st : RepoState) (a : Account) :
    (saveAccount st a).1 =
      if a.isValid then { st with accounts := insertAccount st.accounts a } else st := by
  unfold saveAccount
  cases hv : a.isValid
  · simp [hv]
  · cases hd : st.diskOk <;> simp [hv, hd]

theorem saveAccount_success_iff (st : RepoState) (a : Account) :
    (saveAccount st a).2.success = true ↔ (a.isValid = true ∧ st.diskOk = true) := by
  unfold saveAccount
  cases hv : a.isValid
  · simp [hv, OperationResult.Failure]
  · cases hd : st.diskOk <;>
      simp [hv, hd, OperationResult.Failure, OperationResult.Success]

theorem saveAccount_diskOk (st : RepoState) (a : Account) :
    (saveAccount st a).1.diskOk = st.diskOk := by
  rw [saveAccount_fst]
  split <;> rfl

/-! Helper lemmas about the validation pipeline. -/

theorem validateOperation_success {l : List OperationResult}
    (h : (validateOperation l).success = true) : ∀ r ∈ l, r.success = true := by
  induction l with
  | nil => intro r hr; simp at hr
  | cons x xs ih =>
    intro r hr
    unfold validateOperation at h
    by_cases hx : x.success
    · rw [if_pos hx] at h
      rcases List.mem_cons.mp hr with rfl | hr
      · exact hx
      · exact ih h r hr
    · rw [if_neg hx] at h
      exact absurd h hx

theorem validateAccountExists_success {st : RepoState} {c : String}
    (h : (validateAccountExists st c).success = true) :
    c.isEmpty = false ∧ ∃ a, findByCardNumber st c = some a := by
  unfold validateAccountExists at h
  split at h
  · simp [OperationResult.Failure] at h
  · split at h
    · simp [OperationResult.Failure] at h
    · rename_i h1 h2
      refine ⟨by simpa using h1, ?_⟩
      simp only [accountExists, Bool.not_eq_true', Bool.not_eq_false] at h2
      exact Option.isSome_iff_exists.mp h2

theorem validateAccountNotLocked_success {now : Int} {st : RepoState} {c : String}
    {a : Account} (hf : findByCardNumber st c = some a)
    (h : (validateAccountNotLocked now st c).success = true) :
    a.isLocked = false ∧ a.isTemporarilyLocked now = false := by
  unfold validateAccountNotLocked at h
  simp only [hf] at h
  by_cases hex : (validateAccountExists st c).success = true
  · simp only [hex, Bool.not_true, Bool.false_eq_true, if_false] at h
    by_cases hl : a.isLocked = true
    · simp [hl, OperationResult.Failure] at h
    · by_cases htl : a.isTemporarilyLocked now = true
      · simp [hl, htl, OperationResult.Failure] at h
      · exact ⟨by simpa using hl, by simpa using htl⟩
  · have hex' : (validateAccountExists st c).success = false := by
      cases hv : (validateAccountExists st c).success
      · rfl
      · exact absurd hv hex
    simp only [hex', Bool.not_false, if_true] at h
    exact absurd h (by decide)

theorem validateSufficientBalance_success {st : RepoState} {c : String}
    {amount : ℚ} {a : Account} (hf : findByCardNumber st c = some a)
    (h : (validateSufficientBalance st c amount).success = true) :
    amount ≤ a.balance := by
  unfold validateSufficientBalance at h
  simp only [hf] at h
  by_cases hex : (validateAccountExists st c).success = true
  · simp only [hex, Bool.not_true, Bool.false_eq_true, if_false] at h
    by_cases hb : amount > a.balance
    · simp [hb, OperationResult.Failure] at h
    · exact le_of_not_lt hb
  · have hex' : (validateAccountExists st c).success = false := by
      cases hv : (validateAccountExists st c).success
      · rfl
      · exact absurd hv hex
    simp only [hex', Bool.not_false, if_true] at h
    exact absurd h (by decide)

theorem validateWithdrawLimit_success {st : RepoState} {c : String}
    {amount : ℚ} {a : Account} (hf : findByCardNumber st c = some a)
    (h : (validateWithdrawLimit st c amount).success = true) :
    amount ≤ a.withdrawLimit := by
  unfold validateWithdrawLimit at h
  simp only [hf] at h
  by_cases hex : (validateAccountExists st c).success = true
  · simp only [hex, Bool.not_true, Bool.false_eq_true, if_false] at h
    by_cases hb : amount > a.withdrawLimit
    · simp [hb, OperationResult.Failure] at h
    · exact le_of_not_lt hb
  · have hex' : (validateAccountExists st c).success = false := by
      cases hv : (validateAccountExists st c).success
      · rfl
      · exact absurd hv hex
    simp only [hex', Bool.not_false, if_true] at h
    exact absurd h (by decide)

theorem validateWithdrawal_success {now : Int} {st : RepoState} {c : String}
    {amount : ℚ} (h : (validateWithdrawal now st c amount).success = true) :
    c.isEmpty = false ∧ 0 < amount ∧ ∃ a, findByCardNumber st c = some a ∧
      a.isLocked = false ∧ a.isTemporarilyLocked now = false ∧
      amount ≤ a.withdrawLimit ∧ amount ≤ a.balance := by
  unfold validateWithdrawal at h
  by_cases hc : c.isEmpty = true
  · rw [if_pos hc] at h
    simp [OperationResult.Failure] at h
  · rw [if_neg hc] at h
    by_cases ha : amount ≤ 0
    · rw [if_pos ha] at h
      simp [OperationResult.Failure] at h
    · rw [if_neg ha] at h
      have h4 := validateOperation_success h
      have hex : (validateAccountExists st c).success = true :=
        h4 (validateAccountExists st c) (by simp)
      obtain ⟨-, a, hfa⟩ := validateAccountExists_success hex
      have hnl := validateAccountNotLocked_success hfa
        (h4 (validateAccountNotLocked now st c) (by simp))
      have hwl := validateWithdrawLimit_success hfa
        (h4 (validateWithdrawLimit st c amount) (by simp))
      have hsb := validateSufficientBalance_success hfa
        (h4 (validateSufficientBalance st c amount) (by simp))
      exact ⟨by simpa using hc, lt_of_not_le ha, a, hfa, hnl.1, hnl.2, hwl, hsb⟩

theorem validateDeposit_success {now : Int} {st : RepoState} {c : String}
    {amount : ℚ} (h : (validateDeposit now st c amount).success = true) :
    c.isEmpty = false ∧ 0 < amount ∧ ∃ a, findByCardNumber st c = some a ∧
      a.isLocked = false ∧ a.isTemporarilyLocked now = false := by
  unfold validateDeposit at h
  by_cases hc : c.isEmpty = true
  · rw [if_pos hc] at h
    simp [OperationResult.Failure] at h
  · rw [if_neg hc] at h
    by_cases ha : amount ≤ 0
    · rw [if_pos ha] at h
      simp [OperationResult.Failure] at h
    · rw [if_neg ha] at h
      have h4 := validateOperation_success h
      have hex : (validateAccountExists st c).success = true :=
        h4 (validateAccountExists st c) (by simp)
      obtain ⟨-, a, hfa⟩ := validateAccountExists_success hex
      have hnl := validateAccountNotLocked_success hfa
        (h4 (validateAccountNotLocked now st c) (by simp))
      exact ⟨by simpa using hc, lt_of_not_le ha, a, hfa, hnl.1, hnl.2⟩

theorem validateTransfer_success {now : Int} {st : RepoState} {f t : String}
    {amount : ℚ} (h : (validateTransfer now st f t amount).success = true) :
    f.isEmpty = false ∧ t.isEmpty = false ∧ 0 < amount ∧ (f == t) = false ∧
      (∃ fa, findByCardNumber st f = some fa ∧ fa.isLocked = false ∧
        fa.isTemporarilyLocked now = false ∧ amount ≤ fa.balance) ∧
      (∃ ta, findByCardNumber st t = some ta ∧ ta.isLocked = false ∧
        ta.isTemporarilyLocked now = false) ∧
      amount ≤ 1000000 := by
  unfold validateTransfer at h
  by_cases hf : f.isEmpty = true
  · rw [if_pos hf] at h
    simp [OperationResult.Failure] at h
  · rw [if_neg hf] at h
    by_cases ht : t.isEmpty = true
    · rw [if_pos ht] at h
      simp [OperationResult.Failure] at h
    · rw [if_neg ht] at h
      by_cases ha : amount ≤ 0
      · rw [if_pos ha] at h
        simp [OperationResult.Failure] at h
      · rw [if_neg ha] at h
        have h7 := validateOperation_success h
        have hne : (f == t) = false := by
          cases hq : f == t
          · rfl
          · have := h7 _ (List.mem_cons_self _ _)
            rw [hq] at this
            simp [OperationResult.Failure] at this
        have hexf : (validateAccountExists st f).success = true :=
          h7 (validateAccountExists st f) (by simp)
        obtain ⟨-, fa, hfa⟩ := validateAccountExists_success hexf
        have hnlf := validateAccountNotLocked_success hfa
          (h7 (validateAccountNotLocked now st f) (by simp))
        have hext : (validateAccountExists st t).success = true :=
          h7 (validateAccountExists st t) (by simp)
        obtain ⟨-, ta, hta⟩ := validateAccountExists_success hext
        have hnlt := validateAccountNotLocked_success hta
          (h7 (validateAccountNotLocked now st t) (by simp))
        have hsb := validateSufficientBalance_success hfa
          (h7 (validateSufficientBalance st f amount) (by simp))
        have hcap : amount ≤ 1000000 := by
          have hm := h7
            (if amount > 1000000 then
              OperationResult.Failure ("单次转账不能超过 " ++ fmtQ 1000000)
             else OperationResult.Success) (by simp)
          by_cases hq : amount > 1000000
          · rw [if_pos hq] at hm
            simp [OperationResult.Failure] at hm
          · exact le_of_not_lt hq
        exact ⟨by simpa using hf, by simpa using ht, lt_of_not_le ha, hne,
          ⟨fa, hfa, hnlf.1, hnlf.2, hsb⟩, ⟨ta, hta, hnlt.1, hnlt.2⟩, hcap⟩

/-! Non-negativity machinery for C1. -/

theorem nonneg_insertAccount {l : List Account} {a : Account}
    (h : ∀ b ∈ l, 0 ≤ b.balance) (ha : 0 ≤ a.balance) :
    ∀ b ∈ insertAccount l a, 0 ≤ b.balance := by
  intro b hb
  rcases mem_insertAccount hb with hbl | rfl
  · exact h b hbl
  · exact ha

theorem saveAccount_nonneg {st : RepoState} {a : Account}
    (h : ∀ b ∈ st.accounts, 0 ≤ b.balance) (ha : 0 ≤ a.balance) :
    ∀ b ∈ (saveAccount st a).1.accounts, 0 ≤ b.balance := by
  intro b hb
  rw [saveAccount_fst] at hb
  split at hb
  · exact nonneg_insertAccount h ha b hb
  · exact h b hb

theorem withdrawAmount_nonneg (now : Int) (st : AtmState) (c : String) (amt : ℚ)
    (h : allBalancesNonneg st) : allBalancesNonneg (withdrawAmount now st c amt).1 := by
  unfold withdrawAmount
  cases hv : (validateWithdrawal now st.repo c amt).success
  · simp only [hv, Bool.not_false, if_true]
    exact h
  · simp only [hv, Bool.not_true, Bool.false_eq_true, if_false]
    obtain ⟨-, hamt, a, hfa, -, -, -, hbal⟩ := validateWithdrawal_success hv
    simp only [hfa]
    have hsub : (0 : ℚ) ≤ a.balance - amt := by linarith
    have hmid : ∀ b ∈ (saveAccount st.repo { a with balance := a.balance - amt }).1.accounts,
        0 ≤ b.balance := saveAccount_nonneg h hsub
    cases hs : (saveAccount st.repo { a with balance := a.balance - amt }).2.success
    · simp only [hs, Bool.not_false, if_true]
      exact hmid
    · simp only [hs, Bool.not_true, Bool.false_eq_true, if_false]
      intro b hb
      exact hmid b hb

theorem depositAmount_nonneg (now : Int) (st : AtmState) (c : String) (amt : ℚ)
    (h : allBalancesNonneg st) : allBalancesNonneg (depositAmount now st c amt).1 := by
  unfold depositAmount
  cases hv : (validateDeposit now st.repo c amt).success
  · simp only [hv, Bool.not_false, if_true]
    exact h
  · simp only [hv, Bool.not_true, Bool.false_eq_true, if_false]
    obtain ⟨-, hamt, a, hfa, -, -⟩ := validateDeposit_success hv
    simp only [hfa]
    have ha0 : (0 : ℚ) ≤ a.balance := h a (findByCardNumber_mem hfa)
    have hadd : (0 : ℚ) ≤ a.balance + amt := by linarith
    have hmid : ∀ b ∈ (saveAccount st.repo { a with balance := a.balance + amt }).1.accounts,
        0 ≤ b.balance := saveAccount_nonneg h hadd
    cases hs : (saveAccount st.repo { a with balance := a.balance + amt }).2.success
    · simp only [hs, Bool.not_false, if_true]
      exact hmid
    · simp only [hs, Bool.not_true, Bool.false_eq_true, if_false]
      intro b hb
      exact hmid b hb

theorem transferAmount_nonneg (now : Int) (st : AtmState) (f t : String) (amt : ℚ)
    (h : allBalancesNonneg st) : allBalancesNonneg (transferAmount now st f t amt).1 := by
  unfold transferAmount
  cases hv : (validateTransfer now st.repo f t amt).success
  · simp only [hv, Bool.not_false, if_true]
    exact h
  · simp only [hv, Bool.not_true, Bool.false_eq_true, if_false]
    obtain ⟨-, -, hamt, -, ⟨fa, hfa, -, -, hbal⟩, ⟨ta, hta, -, -⟩, -⟩ :=
      validateTransfer_success hv
    simp only [hfa, hta]
    have hfa0 : (0 : ℚ) ≤ fa.balance - amt := by linarith
    have hta0 : (0 : ℚ) ≤ ta.balance + amt := by
      have := h ta (findByCardNumber_mem hta)
      linarith
    have hroll0 : (0 : ℚ) ≤ fa.balance - amt + amt := by linarith
    have h1 : ∀ b ∈ (saveAccount st.repo { fa with balance := fa.balance - amt }).1.accounts,
        0 ≤ b.balance := saveAccount_nonneg h hfa0
    have h2 : ∀ b ∈ (saveAccount
        (saveAccount st.repo { fa with balance := fa.balance - amt }).1
        { ta with balance := ta.balance + amt }).1.accounts,
        0 ≤ b.balance := saveAccount_nonneg h1 hta0
    have h3 : ∀ b ∈ (saveAccount
        (saveAccount (saveAccount st.repo { fa with balance := fa.balance - amt }).1
          { ta with balance := ta.balance + amt }).1
        { fa with balance := fa.balance - amt + amt }).1.accounts,
        0 ≤ b.balance := saveAccount_nonneg h2 hroll0
    cases hs1 : (saveAccount st.repo { fa with balance := fa.balance - amt }).2.success
    · simp only [hs1, Bool.not_false, if_true]
      exact h1
    · simp only [hs1, Bool.not_true, Bool.false_eq_true, if_false]
      cases hs2 : (saveAccount
          (saveAccount st.repo { fa with balance := fa.balance - amt }).1
          { ta with balance := ta.balance + amt }).2.success
      · simp only [hs2, Bool.not_false, if_true]
        exact h3
      · simp only [hs2, Bool.not_true, Bool.false_eq_true, if_false]
        intro b hb
        exact h2 b hb

theorem applyOp_nonneg (st : AtmState) (p : Int × Op)
    (h : allBalancesNonneg st) : allBalancesNonneg (applyOp st p) := by
  rcases p with ⟨now, op⟩
  cases op with
  | withdraw c amt => exact withdrawAmount_nonneg now st c amt h
  | deposit c amt => exact depositAmount_nonneg now st c amt h
  | transfer f t amt => exact transferAmount_nonneg now st f t amt h

theorem runOps_nonneg (ops : List (Int × Op)) (st : AtmState)
    (h : allBalancesNonneg st) : allBalancesNonneg (runOps st ops) := by
  induction ops generalizing st with
  | nil => exact h
  | cons p ps ih => exact ih (applyOp st p) (applyOp_nonneg st p h)

/-! Insufficient-funds rejection lemmas for C1. -/

theorem validateWithdrawal_insufficient {now : Int} {st : RepoState} {c : String}
    {amt : ℚ} {a : Account} (hfa : findByCardNumber st c = some a)
    (hlt : a.balance < amt) :
    (validateWithdrawal now st c amt).success = false := by
  cases hv : (validateWithdrawal now st c amt).success
  · rfl
  · obtain ⟨-, -, b, hfb, -, -, -, hbal⟩ := validateWithdrawal_success hv
    rw [hfa] at hfb
    have hb : b = a := (Option.some.injEq _ _ ▸ hfb.symm)
    rw [hb] at hbal
    linarith

theorem validateTransfer_insufficient {now : Int} {st : RepoState} {f t : String}
    {amt : ℚ} {fa : Account} (hfa : findByCardNumber st f = some fa)
    (hlt : fa.balance < amt) :
    (validateTransfer now st f t amt).success = false := by
  cases hv : (validateTransfer now st f t amt).success
  · rfl
  · obtain ⟨-, -, -, -, ⟨fb, hfb, -, -, hbal⟩, -, -⟩ := validateTransfer_success hv
    rw [hfa] at hfb
    have hb : fb = fa := (Option.some.injEq _ _ ▸ hfb.symm)
    rw [hb] at hbal
    linarith

theorem withdrawAmount_fail_eq {now : Int} {st : AtmState} {c : String} {amt : ℚ}
    (hv : (validateWithdrawal now st.repo c amt).success = false) :
    withdrawAmount now st c amt = (st, validateWithdrawal now st.repo c amt) := by
  unfold withdrawAmount
  simp only [hv, Bool.not_false, if_true]

theorem transferAmount_fail_eq {now : Int} {st : AtmState} {f t : String} {amt : ℚ}
    (hv : (validateTransfer now st.repo f t amt).success = false) :
    transferAmount now st f t amt = (st, validateTransfer now st.repo f t amt) := by
  unfold transferAmount
  simp only [hv, Bool.not_false, if_true]

/-! Exact insufficient-funds message lemmas. -/

theorem validateWithdrawal_insufficient_msg {now : Int} {st : RepoState}
    {c : String} {amt : ℚ} {a : Account} (hfa : findByCardNumber st c = some a)
    (hc : c.isEmpty = false) (hamt : 0 < amt) (hnl : a.isLocked = false)
    (hnt : a.isTemporarilyLocked now = false) (hwl : amt ≤ a.withdrawLimit)
    (hlt : a.balance < amt) :
    validateWithdrawal now st c amt = OperationResult.Failure "余额不足" := by
  have hex : validateAccountExists st c = OperationResult.Success := by
    unfold validateAccountExists
    rw [if_neg (by simp [hc]), if_neg (by simp [accountExists, hfa])]
  have hnlr : validateAccountNotLocked now st c = OperationResult.Success := by
    unfold validateAccountNotLocked
    simp [hex, hfa, hnl, hnt, OperationResult.Success]
  have hwlr : validateWithdrawLimit st c amt = OperationResult.Success := by
    unfold validateWithdrawLimit
    simp [hex, hfa, OperationResult.Success, not_lt.mpr hwl]
  have hsbr : validateSufficientBalance st c amt = OperationResult.Failure "余额不足" := by
    unfold validateSufficientBalance
    simp [hex, hfa, OperationResult.Success, hlt]
  unfold validateWithdrawal
  rw [if_neg (by simp [hc]), if_neg (not_le.mpr hamt)]
  simp [validateOperation, hex, hnlr, hwlr, hsbr, OperationResult.Success,
    OperationResult.Failure]

theorem validateTransfer_insufficient_msg {now : Int} {st : RepoState}
    {f t : String} {amt : ℚ} {fa ta : Account}
    (hfa : findByCardNumber st f = some fa) (hta : findByCardNumber st t = some ta)
    (hf : f.isEmpty = false) (ht : t.isEmpty = false) (hamt : 0 < amt)
    (hne : (f == t) = false) (hnlf : fa.isLocked = false)
    (hntf : fa.isTemporarilyLocked now = false) (hnlt : ta.isLocked = false)
    (hntt : ta.isTemporarilyLocked now = false) (hlt : fa.balance < amt) :
    validateTransfer now st f t amt = OperationResult.Failure "余额不足" := by
  have hexf : validateAccountExists st f = OperationResult.Success := by
    unfold validateAccountExists
    rw [if_neg (by simp [hf]), if_neg (by simp [accountExists, hfa])]
  have hext : validateAccountExists st t = OperationResult.Success := by
    unfold validateAccountExists
    rw [if_neg (by simp [ht]), if_neg (by simp [accountExists, hta])]
  have hnlfr : validateAccountNotLocked now st f = OperationResult.Success := by
    unfold validateAccountNotLocked
    simp [hexf, hfa, hnlf, hntf, OperationResult.Success]
  have hnltr : validateAccountNotLocked now st t = OperationResult.Success := by
    unfold validateAccountNotLocked
    simp [hext, hta, hnlt, hntt, OperationResult.Success]
  have hsbr : validateSufficientBalance st f amt = OperationResult.Failure "余额不足" := by
    unfold validateSufficientBalance
    simp [hexf, hfa, OperationResult.Success, hlt]
  unfold validateTransfer
  rw [if_neg (by simp [hf]), if_neg (by simp [ht]), if_neg (not_le.mpr hamt)]
  simp [validateOperation, hne, hexf, hext, hnlfr, hnltr, hsbr,
    OperationResult.Success, OperationResult.Failure]

/-! C1. -/

/-- Concrete account for the C1 counterexample: balance 100 and
withdraw limit 50, so a withdrawal of 150 exceeds both. -/
def c1Acct : Account :=
  { cardNumber := "1234567890123456"
    pinHash := Account.hashPin "1234" "abcdefgh12345678"
    salt := "abcdefgh12345678"
    holderName := "张三"
    balance := 100
    withdrawLimit := 50 }

/-- Concrete state for the C1 counterexample. -/
def c1State : AtmState :=
  { repo := { accounts := [c1Acct], diskOk := true }, ledger := [] }

/-- C1 fails as stated: a withdrawal whose amount exceeds both the
balance and the withdraw limit is rejected with the limit-exceeded
message, not the insufficient-funds message (余额不足), although no
balance changes. -/
theorem claim_C1_counterexample :
    c1Acct.balance < 150 ∧
    (withdrawAmount 0 c1State "1234567890123456" 150).1 = c1State ∧
    (withdrawAmount 0 c1State "1234567890123456" 150).2.success = false ∧
    ¬(withdrawAmount 0 c1State "1234567890123456" 150).2.errorMessage = "余额不足" := by
  decide

/-- C1 (amended): every sequence of withdraw/deposit/transfer
operations preserves non-negativity of all balances; a withdrawal or
transfer whose amount exceeds the source balance is always rejected
with no state change (never clamped); the failure message is the
insufficient-funds one whenever the checks preceding the balance check
(login state, positivity, existence, locks, withdraw limit) pass. -/
theorem claim_C1 (st : AtmState) (ops : List (Int × Op)) (now : Int)
    (c f t : String) (amount : ℚ) (a fa : Account) :
    (allBalancesNonneg st → allBalancesNonneg (runOps st ops))
    ∧ (findByCardNumber st.repo c = some a → a.balance < amount →
        (withdrawAmount now st c amount).1 = st ∧
        (withdrawAmount now st c amount).2.success = false)
    ∧ (findByCardNumber st.repo c = some a → a.balance < amount →
        c.isEmpty = false → 0 < amount → a.isLocked = false →
        a.isTemporarilyLocked now = false → amount ≤ a.withdrawLimit →
        (withdrawAmount now st c amount).2 = OperationResult.Failure "余额不足")
    ∧ (findByCardNumber st.repo f = some fa → fa.balance < amount →
        (transferAmount now st f t amount).1 = st ∧
        (transferAmount now st f t amount).2.success = false)
    ∧ (findByCardNumber st.repo f = some fa → fa.balance < amount →
        f.isEmpty = false → t.isEmpty = false → 0 < amount → (f == t) = false →
        fa.isLocked = false → fa.isTemporarilyLocked now = false →
        (∃ ta, findByCardNumber st.repo t = some ta ∧ ta.isLocked = false ∧
          ta.isTemporarilyLocked now = false) →
        (transferAmount now st f t amount).2 = OperationResult.Failure "余额不足") := by
  refine ⟨fun h => runOps_nonneg ops st h, ?_, ?_, ?_, ?_⟩
  · intro hfa hlt
    have hv := @validateWithdrawal_insufficient now st.repo c amount a hfa hlt
    rw [withdrawAmount_fail_eq hv]
    exact ⟨rfl, hv⟩
  · intro hfa hlt hc hamt hnl hnt hwl
    have hmsg := validateWithdrawal_insufficient_msg hfa hc hamt hnl hnt hwl hlt
    have hv : (validateWithdrawal now st.repo c amount).success = false := by
      rw [hmsg]
      rfl
    rw [withdrawAmount_fail_eq hv]
    exact hmsg
  · intro hfa hlt
    have hv := @validateTransfer_insufficient now st.repo f t amount fa hfa hlt
    rw [transferAmount_fail_eq hv]
    exact ⟨rfl, hv⟩
  · intro hfa hlt hf ht hamt hne hnlf hntf hta'
    obtain ⟨ta, hta, hnlt, hntt⟩ := hta'
    have hmsg := validateTransfer_insufficient_msg hfa hta hf ht hamt hne hnlf
      hntf hnlt hntt hlt
    have hv : (validateTransfer now st.repo f t amount).success = false := by
      rw [hmsg]
      rfl
    rw [transferAmount_fail_eq hv]
    exact hmsg

/-- Second concrete account (withdraw limit 2000, balance 100). -/
def c1Acct2 : Account :=
  { cardNumber := "2345678901234567"
    pinHash := Account.hashPin "2345" "qrstuvwx87654321"
    salt := "qrstuvwx87654321"
    holderName := "李四"
    balance := 100
    withdrawLimit := 2000 }

/-- Two-account state used by the C1 witness. -/
def c1StateB : AtmState :=
  { repo := { accounts := [c1Acct, c1Acct2], diskOk := true }, ledger := [] }

/-- A small operation sequence for the C1 witness. -/
def c1Ops : List (Int × Op) :=
  [(0, Op.deposit "2345678901234567" 500),
   (86400, Op.withdraw "2345678901234567" 150),
   (172800, Op.transfer "2345678901234567" "1234567890123456" 100)]

theorem claim_C1_witness :
    allBalancesNonneg c1StateB ∧
    allBalancesNonneg (runOps c1StateB c1Ops) ∧
    (withdrawAmount 0 c1StateB "2345678901234567" 150).1 = c1StateB ∧
    (withdrawAmount 0 c1StateB "2345678901234567" 150).2 =
      OperationResult.Failure "余额不足" ∧
    (transferAmount 0 c1StateB "2345678901234567" "1234567890123456" 150).1 = c1StateB ∧
    (transferAmount 0 c1StateB "2345678901234567" "1234567890123456" 150).2 =
      OperationResult.Failure "余额不足" := by
  have hnn : allBalancesNonneg c1StateB := by
    unfold allBalancesNonneg
    decide
  have h1 := claim_C1 c1StateB c1Ops 0 "2345678901234567" "2345678901234567"
    "1234567890123456" 150 c1Acct2 c1Acct2
  have h2 := h1.2.1 (by decide) (by decide)
  have h3 := h1.2.2.1 (by decide) (by decide) (by decide) (by decide) (by decide)
    (by decide) (by decide)
  have h4 := h1.2.2.2.1 (by decide) (by decide)
  have h5 := h1.2.2.2.2 (by decide) (by decide) (by decide) (by decide) (by decide)
    (by decide) (by decide) (by decide) ⟨c1Acct, by decide, by decide, by decide⟩
  exact ⟨hnn, h1.1 hnn, h2.1, h3, h4.1, h5⟩

/-! C5. -/

/-- Account with a large enough limit and balance for the C5
counterexample. -/
def c5Acct : Account :=
  { cardNumber := "1234567890123456"
    pinHash := Account.hashPin "1234" "abcdefgh12345678"
    salt := "abcdefgh12345678"
    holderName := "张三"
    balance := 5000
    withdrawLimit := 2000 }

/-- Repository for the C5 counterexample. -/
def c5Repo : RepoState := { accounts := [c5Acct], diskOk := true }

/-- C5 fails as stated: 150 is positive and not a multiple of 100, yet
validateWithdrawal accepts it (no multiple-of-100 step exists in the
implementation; validateAmountMultipleOf100 is declared but never
defined or called). -/
theorem claim_C5_counterexample :
    (0 : ℚ) < 150 ∧ (150 : Int) % 100 ≠ 0 ∧
    (validateWithdrawal 0 c5Repo "1234567890123456" 150).success = true := by
  refine ⟨by norm_num, by decide, by decide⟩

/-- C5 (amended): validateWithdrawal checks, in order, that the card
number is non-empty, the amount is positive, the account exists, the
account is neither permanently nor temporarily locked, the amount is
within the withdraw limit, and the amount is within the balance; it
performs no multiple-of-100 check, so for an existing unlocked account
it succeeds exactly when 0 < amount ≤ min(withdrawLimit, balance). -/
theorem claim_C5 (now : Int) (st : RepoState) (c : String) (amount : ℚ)
    (a : Account) (hc : c.isEmpty = false) (hfa : findByCardNumber st c = some a) :
    (validateWithdrawal now st c amount).success = true ↔
      (0 < amount ∧ a.isLocked = false ∧ a.isTemporarilyLocked now = false ∧
        amount ≤ a.withdrawLimit ∧ amount ≤ a.balance) := by
  constructor
  · intro h
    obtain ⟨-, hamt, b, hfb, h1, h2, h3, h4⟩ := validateWithdrawal_success h
    rw [hfa] at hfb
    have hb : a = b := Option.some.inj hfb
    rw [← hb] at h1 h2 h3 h4
    exact ⟨hamt, h1, h2, h3, h4⟩
  · rintro ⟨hamt, hnl, hnt, hwl, hsb⟩
    have hex : validateAccountExists st c = OperationResult.Success := by
      unfold validateAccountExists
      rw [if_neg (by simp [hc]), if_neg (by simp [accountExists, hfa])]
    have hnlr : validateAccountNotLocked now st c = OperationResult.Success := by
      unfold validateAccountNotLocked
      simp [hex, hfa, hnl, hnt, OperationResult.Success]
    have hwlr : validateWithdrawLimit st c amount = OperationResult.Success := by
      unfold validateWithdrawLimit
      simp [hex, hfa, OperationResult.Success, not_lt.mpr hwl]
    have hsbr : validateSufficientBalance st c amount = OperationResult.Success := by
      unfold validateSufficientBalance
      simp [hex, hfa, OperationResult.Success, not_lt.mpr hsb]
    unfold validateWithdrawal
    rw [if_neg (by simp [hc]), if_neg (not_le.mpr hamt)]
    simp [validateOperation, hex, hnlr, hwlr, hsbr, OperationResult.Success]

theorem claim_C5_witness :
    (validateWithdrawal 0 c5Repo "1234567890123456" 150).success = true :=
  (claim_C5 0 c5Repo "1234567890123456" 150 c5Acct (by decide) (by decide)).mpr
    ⟨by norm_num, by decide, by decide, by decide, by decide⟩

/-! C6. -/

/-- Well-formed account whose withdraw limit is exactly 0. -/
def c6Acct : Account :=
  { cardNumber := "3456789012345678"
    pinHash := Account.hashPin "3456" "abcdefgh12345678"
    salt := "abcdefgh12345678"
    holderName := "王五"
    balance := 0
    withdrawLimit := 0 }

/-- Account with a negative balance for the C6 witness. -/
def c6BadAcct : Account :=
  { cardNumber := "3456789012345678"
    pinHash := Account.hashPin "3456" "abcdefgh12345678"
    salt := "abcdefgh12345678"
    holderName := "王五"
    balance := -1
    withdrawLimit := 1000 }

/-- Empty repository for C6. -/
def c6Repo : RepoState := { accounts := [], diskOk := true }

/-- C6 fails as stated: saving an otherwise well-formed account whose
withdraw limit is exactly 0 succeeds (Account::isValid only rejects
withdrawLimit < 0). -/
theorem claim_C6_counterexample :
    c6Acct.withdrawLimit = 0 ∧
    Account.isValidCardNumber c6Acct.cardNumber = true ∧
    c6Acct.holderName.isEmpty = false ∧
    (saveAccount c6Repo c6Acct).2.success = true := by
  decide

/-- Characterization of Account::isValid. -/
theorem isValid_iff (a : Account) :
    a.isValid = true ↔
      (Account.isValidCardNumber a.cardNumber = true ∧
        a.holderName.isEmpty = false ∧ ¬a.balance < 0 ∧ ¬a.withdrawLimit < 0) := by
  unfold Account.isValid
  simp only [Bool.and_eq_true, Bool.not_eq_true', Bool.or_eq_false_iff,
    decide_eq_false_iff_not, and_assoc]

/-- C6 (amended): for an account with a well-formed card number and a
non-empty holder name, the repository save fails with the
invalid-account error if and only if balance < 0 or withdrawLimit < 0;
a withdraw limit of exactly 0 is accepted. -/
theorem claim_C6 (st : RepoState) (a : Account)
    (hcard : Account.isValidCardNumber a.cardNumber = true)
    (hname : a.holderName.isEmpty = false) :
    (saveAccount st a).2 = OperationResult.Failure "账户数据无效" ↔
      (a.balance < 0 ∨ a.withdrawLimit < 0) := by
  unfold saveAccount
  by_cases hv : a.isValid = true
  · obtain ⟨-, -, hb, hw⟩ := (isValid_iff a).mp hv
    simp only [hv, Bool.not_true, Bool.false_eq_true, if_false]
    constructor
    · intro h
      cases hd : st.diskOk
      · rw [if_neg (by simp [hd])] at h
        have := congrArg OperationResult.errorMessage h
        simp [OperationResult.Failure] at this
      · rw [if_pos (by simp [hd])] at h
        have := congrArg OperationResult.success h
        simp [OperationResult.Failure, OperationResult.Success] at this
    · rintro (h | h)
      · exact absurd h hb
      · exact absurd h hw
  · have hbad : a.balance < 0 ∨ a.withdrawLimit < 0 := by
      by_contra hcon
      push_neg at hcon
      exact hv ((isValid_iff a).mpr
        ⟨hcard, hname, not_lt.mpr hcon.1, not_lt.mpr hcon.2⟩)
    have hv' : a.isValid = false := by
      cases hq : a.isValid
      · rfl
      · exact absurd hq hv
    rw [if_pos (by simp [hv'])]
    exact iff_of_true rfl hbad

theorem claim_C6_witness :
    (saveAccount c6Repo c6BadAcct).2 = OperationResult.Failure "账户数据无效" :=
  (claim_C6 c6Repo c6BadAcct (by decide) (by decide)).mpr (Or.inl (by decide))

/-! C2 and C9: stepping lemma for transferAmount past a successful
validation. -/

theorem transferAmount_eq_of_valid {now : Int} {st : AtmState} {f t : String}
    {amount : ℚ} {fa ta : Account}
    (hv : (validateTransfer now st.repo f t amount).success = true)
    (hfa : findByCardNumber st.repo f = some fa)
    (hta : findByCardNumber st.repo t = some ta) :
    transferAmount now st f t amount =
      (let fromAccount := { fa with balance := fa.balance - amount }
       let toAccount := { ta with balance := ta.balance + amount }
       let savedFrom := saveAccount st.repo fromAccount
       if !savedFrom.2.success then ({ st with repo := savedFrom.1 }, savedFrom.2)
       else
         let savedTo := saveAccount savedFrom.1 toAccount
         if !savedTo.2.success then
           let rollback := { fromAccount with balance := fromAccount.balance + amount }
           let savedRollback := saveAccount savedTo.1 rollback
           ({ st with repo := savedRollback.1 }, savedTo.2)
         else
           let st2 : AtmState := { st with repo := savedTo.1 }
           let st3 := recordTransaction now st2 f TransactionType.Transfer amount
             fromAccount.balance ("转账给 " ++ toAccount.holderName) t
           let st4 := recordTransaction now st3 t TransactionType.Deposit amount
             toAccount.balance ("来自 " ++ fromAccount.holderName ++ " 的转账") f
           (st4, OperationResult.Success)) := by
  unfold transferAmount
  simp only [hv, Bool.not_true, Bool.false_eq_true, if_false, hfa, hta]

/-- C2: a successful transfer decreases the sender balance by exactly
the amount, increases the receiver balance by exactly the amount, and
leaves every other account unchanged. -/
theorem claim_C2 (now : Int) (st : AtmState) (f t : String) (amount : ℚ)
    (fa ta : Account)
    (hfa : findByCardNumber st.repo f = some fa)
    (hta : findByCardNumber st.repo t = some ta)
    (hs : (transferAmount now st f t amount).2.success = true) :
    findByCardNumber (transferAmount now st f t amount).1.repo f =
      some { fa with balance := fa.balance - amount } ∧
    findByCardNumber (transferAmount now st f t amount).1.repo t =
      some { ta with balance := ta.balance + amount } ∧
    fa.balance - (fa.balance - amount) = amount ∧
    (ta.balance + amount) - ta.balance = amount ∧
    (∀ c, c ≠ f → c ≠ t →
      findByCardNumber (transferAmount now st f t amount).1.repo c =
        findByCardNumber st.repo c) := by
  have hv : (validateTransfer now st.repo f t amount).success = true := by
    cases hq : (validateTransfer now st.repo f t amount).success
    · rw [transferAmount_fail_eq hq] at hs
      simp only [hq] at hs
      exact hs
    · rfl
  obtain ⟨-, -, -, hne, -, -, -⟩ := validateTransfer_success hv
  have hfkey : fa.cardNumber = f := findByCardNumber_key hfa
  have htkey : ta.cardNumber = t := findByCardNumber_key hta
  have hftne : f ≠ t := by
    intro hq
    rw [hq] at hne
    simp at hne
  rw [transferAmount_eq_of_valid hv hfa hta] at hs ⊢
  simp only at hs ⊢
  cases hs1 : (saveAccount st.repo { fa with balance := fa.balance - amount }).2.success
  · rw [hs1] at hs
    simp [hs1] at hs
  · rw [hs1] at hs
    simp only [Bool.not_true, Bool.false_eq_true, if_false] at hs ⊢
    cases hs2 : (saveAccount
        (saveAccount st.repo { fa with balance := fa.balance - amount }).1
        { ta with balance := ta.balance + amount }).2.success
    · rw [hs2] at hs
      simp [hs2] at hs
    · rw [hs2] at hs
      simp only [Bool.not_true, Bool.false_eq_true, if_false] at hs ⊢
      have hval1 := (saveAccount_success_iff st.repo
        { fa with balance := fa.balance - amount }).mp hs1
      have hval2 := (saveAccount_success_iff _
        { ta with balance := ta.balance + amount }).mp hs2
      have hst1 : (saveAccount st.repo { fa with balance := fa.balance - amount }).1 =
          { st.repo with accounts :=
            insertAccount st.repo.accounts { fa with balance := fa.balance - amount } } := by
        rw [saveAccount_fst, if_pos hval1.1]
      have hst2 : (saveAccount
          (saveAccount st.repo { fa with balance := fa.balance - amount }).1
          { ta with balance := ta.balance + amount }).1 =
          { (saveAccount st.repo { fa with balance := fa.balance - amount }).1 with
            accounts := insertAccount
              (saveAccount st.repo { fa with balance := fa.balance - amount }).1.accounts
              { ta with balance := ta.balance + amount } } := by
        rw [saveAccount_fst, if_pos hval2.1]
      have hacc : (saveAccount
          (saveAccount st.repo { fa with balance := fa.balance - amount }).1
          { ta with balance := ta.balance + amount }).1.accounts =
          insertAccount (insertAccount st.repo.accounts
            { fa with balance := fa.balance - amount })
            { ta with balance := ta.balance + amount } := by
        rw [hst2, hst1]
      have hkeyf : ({ fa with balance := fa.balance - amount } : Account).cardNumber = f :=
        hfkey
      have hkeyt : ({ ta with balance := ta.balance + amount } : Account).cardNumber = t :=
        htkey
      refine ⟨?_, ?_, by ring, by ring, ?_⟩
      · show findByCardNumber (saveAccount
          (saveAccount st.repo { fa with balance := fa.balance - amount }).1
          { ta with balance := ta.balance + amount }).1 f =
          some { fa with balance := fa.balance - amount }
        unfold findByCardNumber
        rw [hacc]
        have hother := find_insertAccount_other
          (insertAccount st.repo.accounts { fa with balance := fa.balance - amount })
          { ta with balance := ta.balance + amount } f
          (by rw [hkeyt]; exact hftne)
        rw [hother]
        have hself := find_insertAccount_self st.repo.accounts
          { fa with balance := fa.balance - amount }
        rw [← hfkey]
        exact hself
      · show findByCardNumber (saveAccount
          (saveAccount st.repo { fa with balance := fa.balance - amount }).1
          { ta with balance := ta.balance + amount }).1 t =
          some { ta with balance := ta.balance + amount }
        unfold findByCardNumber
        rw [hacc]
        have hself := find_insertAccount_self
          (insertAccount st.repo.accounts { fa with balance := fa.balance - amount })
          { ta with balance := ta.balance + amount }
        rw [← htkey]
        exact hself
      · intro c hcf hct
        show findByCardNumber (saveAccount
          (saveAccount st.repo { fa with balance := fa.balance - amount }).1
          { ta with balance := ta.balance + amount }).1 c = findByCardNumber st.repo c
        unfold findByCardNumber
        rw [hacc]
        have ho2 := find_insertAccount_other
          (insertAccount st.repo.accounts { fa with balance := fa.balance - amount })
          { ta with balance := ta.balance + amount } c (by rw [hkeyt]; exact hct)
        rw [ho2]
        have ho1 := find_insertAccount_other st.repo.accounts
          { fa with balance := fa.balance - amount } c (by rw [hkeyf]; exact hcf)
        rw [ho1]

theorem claim_C2_witness :
    findByCardNumber
      (transferAmount 0 c1StateB "1234567890123456" "2345678901234567" 50).1.repo
      "1234567890123456" = some { c1Acct with balance := c1Acct.balance - 50 } ∧
    findByCardNumber
      (transferAmount 0 c1StateB "1234567890123456" "2345678901234567" 50).1.repo
      "2345678901234567" = some { c1Acct2 with balance := c1Acct2.balance + 50 } ∧
    c1Acct.balance - (c1Acct.balance - 50) = 50 ∧
    (c1Acct2.balance + 50) - c1Acct2.balance = 50 ∧
    findByCardNumber
      (transferAmount 0 c1StateB "1234567890123456" "2345678901234567" 50).1.repo
      "3456789012345678" = findByCardNumber c1StateB.repo "3456789012345678" := by
  have h := claim_C2 0 c1StateB "1234567890123456" "2345678901234567" 50
    c1Acct c1Acct2 (by decide) (by decide) (by decide)
  exact ⟨h.1, h.2.1, h.2.2.1, h.2.2.2.1,
    h.2.2.2.2 "3456789012345678" (by decide) (by decide)⟩

/-- C9: when the transfer validation passes, the sender save succeeds,
but persisting the receiver fails, transferAmount returns that failure,
rolls the sender back to its pre-transfer value with a compensating
save, and appends no transaction. -/
theorem claim_C9 (now : Int) (st : AtmState) (f t : String) (amount : ℚ)
    (fa ta : Account)
    (hfa : findByCardNumber st.repo f = some fa)
    (hta : findByCardNumber st.repo t = some ta)
    (hv : (validateTransfer now st.repo f t amount).success = true)
    (h1 : (saveAccount st.repo { fa with balance := fa.balance - amount }).2.success = true)
    (h2 : (saveAccount (saveAccount st.repo { fa with balance := fa.balance - amount }).1
        { ta with balance := ta.balance + amount }).2.success = false) :
    (transferAmount now st f t amount).2 =
      (saveAccount (saveAccount st.repo { fa with balance := fa.balance - amount }).1
        { ta with balance := ta.balance + amount }).2 ∧
    (transferAmount now st f t amount).2.success = false ∧
    findByCardNumber (transferAmount now st f t amount).1.repo f = some fa ∧
    (transferAmount now st f t amount).1.ledger = st.ledger := by
  obtain ⟨-, -, hamt, -, ⟨fa', hfa', -, -, hbal'⟩, -, -⟩ := validateTransfer_success hv
  have hfaeq : fa' = fa := by
    rw [hfa] at hfa'
    exact (Option.some.inj hfa').symm
  subst hfaeq
  have hfkey : fa'.cardNumber = f := findByCardNumber_key hfa
  have hval1 := (saveAccount_success_iff st.repo
    { fa' with balance := fa'.balance - amount }).mp h1
  have hst1 : (saveAccount st.repo { fa' with balance := fa'.balance - amount }).1 =
      { st.repo with accounts :=
        insertAccount st.repo.accounts { fa' with balance := fa'.balance - amount } } := by
    rw [saveAccount_fst, if_pos hval1.1]
  have hdisk1 : (saveAccount st.repo
      { fa' with balance := fa'.balance - amount }).1.diskOk = true := by
    rw [saveAccount_diskOk]
    exact hval1.2
  have htoInvalid : ({ ta with balance := ta.balance + amount } : Account).isValid = false := by
    cases hq : ({ ta with balance := ta.balance + amount } : Account).isValid
    · rfl
    · have := (saveAccount_success_iff
        (saveAccount st.repo { fa' with balance := fa'.balance - amount }).1
        { ta with balance := ta.balance + amount }).mpr ⟨hq, hdisk1⟩
      rw [h2] at this
      exact absurd this (by decide)
  have hstTo : (saveAccount
      (saveAccount st.repo { fa' with balance := fa'.balance - amount }).1
      { ta with balance := ta.balance + amount }).1 =
      (saveAccount st.repo { fa' with balance := fa'.balance - amount }).1 := by
    rw [saveAccount_fst, if_neg (by rw [htoInvalid]; exact Bool.false_ne_true)]
  have hrolleq : ({ fa' with balance := fa'.balance - amount + amount } : Account) = fa' := by
    have hb : fa'.balance - amount + amount = fa'.balance := by ring
    rw [hb]
  obtain ⟨hcard', hname', hb', hw'⟩ := (isValid_iff _).mp hval1.1
  have hfaValid : fa'.isValid = true := by
    apply (isValid_iff fa').mpr
    refine ⟨hcard', hname', ?_, hw'⟩
    intro hneg
    apply hb'
    linarith
  have hrollState : (saveAccount
      (saveAccount st.repo { fa' with balance := fa'.balance - amount }).1
      { fa' with balance := fa'.balance - amount + amount }).1 =
      { (saveAccount st.repo { fa' with balance := fa'.balance - amount }).1 with
        accounts := insertAccount
          (saveAccount st.repo { fa' with balance := fa'.balance - amount }).1.accounts
          fa' } := by
    rw [hrolleq, saveAccount_fst, if_pos hfaValid]
  rw [transferAmount_eq_of_valid hv hfa hta]
  simp only
  rw [h1]
  simp only [Bool.not_true, Bool.false_eq_true, if_false]
  rw [h2]
  simp only [Bool.not_false, if_true]
  rw [hstTo]
  refine ⟨by trivial, ?_, ?_, by trivial⟩
  · exact h2
  · show findByCardNumber (saveAccount
      (saveAccount st.repo { fa' with balance := fa'.balance - amount }).1
      { fa' with balance := fa'.balance - amount + amount }).1 f = some fa'
    rw [hrollState]
    show (insertAccount
      (saveAccount st.repo { fa' with balance := fa'.balance - amount }).1.accounts
      fa').find? (fun b => b.cardNumber == f) = some fa'
    rw [← hfkey]
    exact find_insertAccount_self _ fa'

/-- Receiver account with an empty holder name: transfer validation
accepts it (only existence and locks are checked), but saving it fails
Account::isValid, so persisting the receiver fails. -/
def c9BadReceiver : Account :=
  { cardNumber := "2345678901234567"
    pinHash := Account.hashPin "2345" "qrstuvwx87654321"
    salt := "qrstuvwx87654321"
    holderName := ""
    balance := 100
    withdrawLimit := 2000 }

/-- State for the C9 witness. -/
def c9State : AtmState :=
  { repo := { accounts := [c1Acct, c9BadReceiver], diskOk := true }, ledger := [] }

theorem claim_C9_witness :
    (transferAmount 0 c9State "1234567890123456" "2345678901234567" 50).2 =
      (saveAccount
        (saveAccount c9State.repo { c1Acct with balance := c1Acct.balance - 50 }).1
        { c9BadReceiver with balance := c9BadReceiver.balance + 50 }).2 ∧
    (transferAmount 0 c9State "1234567890123456" "2345678901234567" 50).2.success = false ∧
    findByCardNumber
      (transferAmount 0 c9State "1234567890123456" "2345678901234567" 50).1.repo
      "1234567890123456" = some c1Acct ∧
    (transferAmount 0 c9State "1234567890123456" "2345678901234567" 50).1.ledger =
      c9State.ledger := by
  have h := claim_C9 0 c9State "1234567890123456" "2345678901234567" 50
    c1Acct c9BadReceiver (by decide) (by decide) (by decide) (by decide) (by decide)
  exact h

/-! C3: lockout state machine. -/

/-- C3: recordFailedLogin increments the counter; the third
consecutive failure sets the temporary lock to the failure time plus
15 minutes (and earlier failures do not change the lock); while
temporarily locked, validateCredentials fails with the lock message
even for the correct PIN; a successful verification before the third
failure resets the counter to 0 and clears the lock timestamp in the
stored account. -/
theorem claim_C3 (now : Int) (st : RepoState) (card pin : String) (a : Account) :
    ((a.recordFailedLogin now).1.failedLoginAttempts = a.failedLoginAttempts + 1)
    ∧ (a.failedLoginAttempts = 2 →
        (a.recordFailedLogin now).1.temporaryLockTime = some (now + 15 * 60) ∧
        (a.recordFailedLogin now).2 = true)
    ∧ (a.failedLoginAttempts + 1 < 3 →
        (a.recordFailedLogin now).1.temporaryLockTime = a.temporaryLockTime ∧
        (a.recordFailedLogin now).2 = false)
    ∧ (findByCardNumber st card = some a → card.isEmpty = false →
        pin.isEmpty = false → Account.isValidCardNumber card = true →
        a.isLocked = false → a.isTemporarilyLocked now = true →
        a.verifyPin pin = true →
        (validateCredentials now st card pin).2 = OperationResult.Failure tempLockedMsg)
    ∧ (findByCardNumber st card = some a → card.isEmpty = false →
        pin.isEmpty = false → Account.isValidCardNumber card = true →
        a.isLocked = false → a.isTemporarilyLocked now = false →
        a.verifyPin pin = true → 0 < a.failedLoginAttempts → a.isValid = true →
        (validateCredentials now st card pin).2 = OperationResult.Success ∧
        findByCardNumber (validateCredentials now st card pin).1 card =
          some a.resetFailedLoginAttempts ∧
        a.resetFailedLoginAttempts.failedLoginAttempts = 0 ∧
        a.resetFailedLoginAttempts.temporaryLockTime = none) := by
  refine ⟨?_, ?_, ?_, ?_, ?_⟩
  · simp only [Account.recordFailedLogin]
    split <;> rfl
  · intro h2
    simp only [Account.recordFailedLogin, h2]
    norm_num [Account.MAX_FAILED_ATTEMPTS, Account.TEMP_LOCK_DURATION]
  · intro hlt
    simp only [Account.recordFailedLogin]
    rw [if_neg (by
      simp only [Account.MAX_FAILED_ATTEMPTS]
      omega)]
    exact ⟨rfl, rfl⟩
  · intro hf hc hp hcard hnl htl hvp
    have hcf : validateCardNumberFormat card = OperationResult.Success := by
      unfold validateCardNumberFormat
      rw [if_neg (by simp [hcard])]
    unfold validateCredentials
    rw [if_neg (by simp [hc]), if_neg (by simp [hp])]
    simp [hcf, hf, hnl, htl, OperationResult.Success]
  · intro hf hc hp hcard hnl htl hvp hpos hvalid
    have hcf : validateCardNumberFormat card = OperationResult.Success := by
      unfold validateCardNumberFormat
      rw [if_neg (by simp [hcard])]
    have hred : validateCredentials now st card pin =
        ((saveAccount st a.resetFailedLoginAttempts).1, OperationResult.Success) := by
      unfold validateCredentials
      rw [if_neg (by simp [hc]), if_neg (by simp [hp])]
      simp [hcf, hf, hnl, htl, hvp, hpos, OperationResult.Success]
    rw [hred]
    have hrvalid : a.resetFailedLoginAttempts.isValid = true := hvalid
    have hst : (saveAccount st a.resetFailedLoginAttempts).1 =
        { st with accounts := insertAccount st.accounts a.resetFailedLoginAttempts } := by
      rw [saveAccount_fst, if_pos hrvalid]
    have hkey : a.cardNumber = card := findByCardNumber_key hf
    have hfind : findByCardNumber (saveAccount st a.resetFailedLoginAttempts).1 card =
        some a.resetFailedLoginAttempts := by
      rw [hst]
      unfold findByCardNumber
      rw [← hkey]
      exact find_insertAccount_self st.accounts a.resetFailedLoginAttempts
    exact ⟨rfl, hfind, rfl, rfl⟩

/-- Account two failures away from the lock threshold. -/
def c3Acct2 : Account := { c1Acct with failedLoginAttempts := 2 }

/-- Temporarily locked account (lock until time 2000). -/
def c3LockedAcct : Account :=
  { c1Acct with failedLoginAttempts := 3, temporaryLockTime := some 2000 }

/-- Account with one failed attempt, about to log in correctly. -/
def c3ResetAcct : Account := { c1Acct with failedLoginAttempts := 1 }

/-- Repository holding the temporarily locked account. -/
def c3RepoL : RepoState := { accounts := [c3LockedAcct], diskOk := true }

/-- Repository holding the one-failure account. -/
def c3RepoR : RepoState := { accounts := [c3ResetAcct], diskOk := true }

theorem claim_C3_witness :
    ((c1Acct.recordFailedLogin 5).1.failedLoginAttempts =
      c1Acct.failedLoginAttempts + 1) ∧
    ((c3Acct2.recordFailedLogin 1000).1.temporaryLockTime = some (1000 + 15 * 60)) ∧
    ((c3Acct2.recordFailedLogin 1000).2 = true) ∧
    ((c1Acct.recordFailedLogin 5).1.temporaryLockTime = c1Acct.temporaryLockTime) ∧
    ((c1Acct.recordFailedLogin 5).2 = false) ∧
    ((validateCredentials 1000 c3RepoL "1234567890123456" "1234").2 =
      OperationResult.Failure tempLockedMsg) ∧
    ((validateCredentials 1000 c3RepoR "1234567890123456" "1234").2 =
      OperationResult.Success) ∧
    (findByCardNumber (validateCredentials 1000 c3RepoR "1234567890123456" "1234").1
      "1234567890123456" = some c3ResetAcct.resetFailedLoginAttempts) ∧
    (c3ResetAcct.resetFailedLoginAttempts.failedLoginAttempts = 0) ∧
    (c3ResetAcct.resetFailedLoginAttempts.temporaryLockTime = none) := by
  have hA := claim_C3 5 c3RepoL "1234567890123456" "1234" c1Acct
  have hB := claim_C3 1000 c3RepoL "1234567890123456" "1234" c3Acct2
  have hC := claim_C3 1000 c3RepoL "1234567890123456" "1234" c3LockedAcct
  have hD := claim_C3 1000 c3RepoR "1234567890123456" "1234" c3ResetAcct
  have h2 := hB.2.1 (by decide)
  have h2b := hA.2.2.1 (by decide)
  have h3 := hC.2.2.2.1 (by decide) (by decide) (by decide) (by decide) (by decide)
    (by decide) (by decide)
  have h4 := hD.2.2.2.2 (by decide) (by decide) (by decide) (by decide) (by decide)
    (by decide) (by decide) (by decide) (by decide)
  exact ⟨hA.1, h2.1, h2.2, h2b.1, h2b.2, h3, h4.1, h4.2.1, h4.2.2.1, h4.2.2.2⟩

/-! C10: login frame property. -/

theorem saveAccount_preserves_view (st : RepoState) (account a' : Account) (c : String)
    (hfound : findByCardNumber st account.cardNumber = some account)
    (hkey : a'.cardNumber = account.cardNumber)
    (hbal : a'.balance = account.balance)
    (hlim : a'.withdrawLimit = account.withdrawLimit) :
    ((findByCardNumber (saveAccount st a').1 c).map
      (fun x => (x.balance, x.withdrawLimit))) =
      ((findByCardNumber st c).map (fun x => (x.balance, x.withdrawLimit))) := by
  rw [saveAccount_fst]
  split
  · by_cases hc : c = a'.cardNumber
    · subst hc
      have hL : findByCardNumber
          { st with accounts := insertAccount st.accounts a' } a'.cardNumber =
          some a' := find_insertAccount_self st.accounts a'
      have hR : findByCardNumber st a'.cardNumber = some account := by
        rw [hkey]
        exact hfound
      rw [hL, hR]
      simp [hbal, hlim]
    · have hL : findByCardNumber
          { st with accounts := insertAccount st.accounts a' } c =
          findByCardNumber st c := find_insertAccount_other st.accounts a' c hc
      rw [hL]
  · rfl

/-- validateCredentials only touches the failed-login counters: the
balance and withdraw limit of every stored account are unchanged. -/
theorem validateCredentials_preserves (now : Int) (st : RepoState)
    (card pin c : String) :
    ((findByCardNumber (validateCredentials now st card pin).1 c).map
      (fun x => (x.balance, x.withdrawLimit))) =
      ((findByCardNumber st c).map (fun x => (x.balance, x.withdrawLimit))) := by
  unfold validateCredentials
  by_cases h1 : card.isEmpty = true
  · rw [if_pos h1]
  · rw [if_neg h1]
    by_cases h2 : pin.isEmpty = true
    · rw [if_pos h2]
    · rw [if_neg h2]
      by_cases h3 : (validateCardNumberFormat card).success = true
      · rw [if_neg (by simp [h3])]
        cases hfind : findByCardNumber st card with
        | none => simp only [hfind]
        | some account =>
          simp only [hfind]
          have hself : findByCardNumber st account.cardNumber = some account := by
            rw [findByCardNumber_key hfind]
            exact hfind
          by_cases h4 : account.isLocked = true
          · rw [if_pos h4]
          · rw [if_neg h4]
            by_cases h5 : account.isTemporarilyLocked now = true
            · rw [if_pos h5]
            · rw [if_neg h5]
              by_cases h6 : account.verifyPin pin = true
              · rw [if_neg (by simp [h6])]
                by_cases h7 : account.failedLoginAttempts > 0
                · rw [if_pos h7]
                  exact saveAccount_preserves_view st account
                    account.resetFailedLoginAttempts c hself rfl rfl rfl
                · rw [if_neg h7]
              · rw [if_pos (by simp [h6])]
                have hkeep : (account.recordFailedLogin now).1.cardNumber =
                    account.cardNumber ∧
                    (account.recordFailedLogin now).1.balance = account.balance ∧
                    (account.recordFailedLogin now).1.withdrawLimit =
                      account.withdrawLimit := by
                  simp only [Account.recordFailedLogin]
                  split
                  · exact ⟨rfl, rfl, rfl⟩
                  · exact ⟨rfl, rfl, rfl⟩
                have hsave := saveAccount_preserves_view st account
                  (account.recordFailedLogin now).1 c hself hkeep.1 hkeep.2.1 hkeep.2.2
                by_cases h8 : (account.recordFailedLogin now).2 = true
                · rw [if_pos h8]
                  exact hsave
                · rw [if_neg h8]
                  exact hsave
      · rw [if_pos (by simp [h3])]

/-- C10: a successful login appends exactly one Other-typed transaction
of amount 0 whose balanceAfter is the account's current balance, and
changes no balance or withdraw limit; a failed login appends nothing. -/
theorem claim_C10 (now : Int) (st : AtmState) (card pin : String) :
    ((performLogin now st card pin).2.success = true →
      ∃ a, findByCardNumber (validateCredentials now st.repo card pin).1 card =
          some a ∧
        (performLogin now st card pin).1.ledger =
          st.ledger ++ [⟨card, now, TransactionType.Other, 0, a.balance, "用户登录", ""⟩] ∧
        ((findByCardNumber (performLogin now st card pin).1.repo card).map
          (fun x => (x.balance, x.withdrawLimit))) =
          ((findByCardNumber st.repo card).map
            (fun x => (x.balance, x.withdrawLimit))) ∧
        ((findByCardNumber st.repo card).map (fun x => x.balance)) = some a.balance)
    ∧ ((performLogin now st card pin).2.success = false →
        (performLogin now st card pin).1.ledger = st.ledger) := by
  simp only [performLogin]
  cases hv2 : (validateCredentials now st.repo card pin).2.success
  · simp only [Bool.not_false, if_true]
    constructor
    · intro h
      simp [LoginResult.Failure] at h
    · intro h
      trivial
  · simp only [Bool.not_true, Bool.false_eq_true, if_false]
    cases hfind : findByCardNumber (validateCredentials now st.repo card pin).1 card with
    | none =>
      simp only [hfind]
      constructor
      · intro h
        simp [LoginResult.Failure] at h
      · intro h
        trivial
    | some account =>
      simp only [hfind]
      have hview := validateCredentials_preserves now st.repo card pin card
      constructor
      · intro h
        refine ⟨account, rfl, ?_, hview, ?_⟩
        · trivial
        · rw [hfind] at hview
          cases hmap : findByCardNumber st.repo card with
          | none =>
            rw [hmap] at hview
            simp at hview
          | some b =>
            rw [hmap] at hview
            simp only [Option.map_some'] at hview ⊢
            simp only [Option.some.injEq, Prod.mk.injEq] at hview
            rw [hview.1]
      · intro h
        simp [LoginResult.Success] at h

/-- One-account state for the C10 witness. -/
def c10State : AtmState :=
  { repo := { accounts := [c1Acct], diskOk := true }, ledger := [] }

theorem claim_C10_witness :
    (performLogin 7 c10State "1234567890123456" "1234").2.success = true ∧
    (performLogin 7 c10State "1234567890123456" "1234").1.ledger =
      c10State.ledger ++ [⟨"1234567890123456", 7, TransactionType.Other, 0,
        c1Acct.balance, "用户登录", ""⟩] ∧
    ((findByCardNumber (performLogin 7 c10State "1234567890123456" "1234").1.repo
      "1234567890123456").map (fun x => (x.balance, x.withdrawLimit))) =
      ((findByCardNumber c10State.repo "1234567890123456").map
        (fun x => (x.balance, x.withdrawLimit))) ∧
    (performLogin 7 c10State "1234567890123456" "9999").2.success = false ∧
    (performLogin 7 c10State "1234567890123456" "9999").1.ledger = c10State.ledger := by
  have hT := claim_C10 7 c10State "1234567890123456" "1234"
  have hF := claim_C10 7 c10State "1234567890123456" "9999"
  have hsucc : (performLogin 7 c10State "1234567890123456" "1234").2.success = true := by
    decide
  obtain ⟨a, hfa, hled, hbalview, hbal⟩ := hT.1 hsucc
  have h2 : findByCardNumber
      (validateCredentials 7 c10State.repo "1234567890123456" "1234").1
      "1234567890123456" = some c1Acct := by decide
  have ha : a = c1Acct := Option.some.inj (hfa.symm.trans h2)
  subst ha
  have hfail : (performLogin 7 c10State "1234567890123456" "9999").2.success = false := by
    decide
  exact ⟨hsucc, hled, hbalview, hfail, hF.2 hfail⟩

/-! C4: changePin never re-hashes. -/

/-- State for exercising changePin at a concrete input. -/
def c4State : AtmState :=
  { repo := { accounts := [c1Acct], diskOk := true }, ledger := [] }

/-- C4 (code bug): changing the PIN from 1234 to 5678 succeeds, yet the
stored account is completely unchanged: pinHash still hashes the old
PIN, the new PIN does not verify, and the old PIN still does.  The
source line `account.pin = newPin` writes to a member the Account class
does not declare instead of calling Account::setPin, which (as the last
conjunct shows) would have made the new PIN verify after re-hashing
with a fresh salt. -/
theorem claim_C4 :
    (changePin 3 c4State "1234567890123456" "1234" "5678" "5678").2.success = true ∧
    findByCardNumber
      (changePin 3 c4State "1234567890123456" "1234" "5678" "5678").1.repo
      "1234567890123456" = some c1Acct ∧
    c1Acct.pinHash = Account.hashPin "1234" c1Acct.salt ∧
    c1Acct.verifyPin "5678" = false ∧
    c1Acct.verifyPin "1234" = true ∧
    (c1Acct.setPin "5678" "freshsalt1234567").verifyPin "5678" = true := by
  decide

/-! C8: the administrator account always exists after a load. -/

theorem foldl_insert_find_none (c : String) :
    ∀ (parsed : List Account) (init : List Account),
      (∀ b ∈ parsed, b.cardNumber ≠ c) →
      (parsed.foldl (fun l a => insertAccount l a) init).find?
        (fun a => a.cardNumber == c) =
        init.find? (fun a => a.cardNumber == c) := by
  intro parsed
  induction parsed with
  | nil =>
    intro init h
    rfl
  | cons x xs ih =>
    intro init h
    have hx : c ≠ x.cardNumber := fun hq =>
      (h x (List.mem_cons_self x xs)) hq.symm
    have hxs : ∀ b ∈ xs, b.cardNumber ≠ c := fun b hb =>
      h b (List.mem_cons_of_mem x hb)
    simp only [List.foldl_cons]
    rw [ih (insertAccount init x) hxs]
    exact find_insertAccount_other init x c hx

/-- C8: after every successful load, the administrator account
9999888877776666 is present; when it was absent from the parsed data it
is the freshly created default administrator, with isAdmin set and the
fixed initial PIN 8888 hashed with the fresh salt (so PIN 8888
verifies). -/
theorem claim_C8 (parsed : List Account) (freshSalt : String) :
    ((loadAccounts parsed freshSalt).find?
      (fun a => a.cardNumber == adminCardNumber)).isSome = true ∧
    ((∀ b ∈ parsed, b.cardNumber ≠ adminCardNumber) →
      (loadAccounts parsed freshSalt).find?
        (fun a => a.cardNumber == adminCardNumber) =
        some (defaultAdminAccount freshSalt) ∧
      (defaultAdminAccount freshSalt).isAdmin = true ∧
      (defaultAdminAccount freshSalt).pinHash = Account.hashPin "8888" freshSalt ∧
      (defaultAdminAccount freshSalt).verifyPin "8888" = true) := by
  have hkeyA : (defaultAdminAccount freshSalt).cardNumber = adminCardNumber := by
    unfold defaultAdminAccount Account.setPin
    split <;> rfl
  have hadmin : (defaultAdminAccount freshSalt).isAdmin = true := by
    unfold defaultAdminAccount Account.setPin
    split <;> rfl
  have hsalt : (defaultAdminAccount freshSalt).salt = freshSalt := by
    unfold defaultAdminAccount Account.setPin
    rw [if_pos (by decide)]
  have hpin : (defaultAdminAccount freshSalt).pinHash =
      Account.hashPin "8888" freshSalt := by
    unfold defaultAdminAccount Account.setPin
    rw [if_pos (by decide)]
  have hverify : (defaultAdminAccount freshSalt).verifyPin "8888" = true := by
    unfold Account.verifyPin
    rw [hpin, hsalt]
    simp
  simp only [loadAccounts]
  by_cases hc : ((parsed.foldl (fun l a => insertAccount l a) []).find?
      (fun a => a.cardNumber == adminCardNumber)).isSome = true
  · rw [if_pos hc]
    refine ⟨hc, ?_⟩
    intro habs
    have hnone := foldl_insert_find_none adminCardNumber parsed [] habs
    rw [hnone] at hc
    simp at hc
  · rw [if_neg hc]
    have hfound : (insertAccount (parsed.foldl (fun l a => insertAccount l a) [])
        (defaultAdminAccount freshSalt)).find?
        (fun a => a.cardNumber == adminCardNumber) =
        some (defaultAdminAccount freshSalt) := by
      rw [← hkeyA]
      exact find_insertAccount_self _ _
    refine ⟨by rw [hfound]; rfl, ?_⟩
    intro habs
    exact ⟨hfound, hadmin, hpin, hverify⟩

theorem claim_C8_witness :
    ((loadAccounts [c1Acct] "wxyz5678abcd1234").find?
      (fun a => a.cardNumber == adminCardNumber)).isSome = true ∧
    (loadAccounts [c1Acct] "wxyz5678abcd1234").find?
      (fun a => a.cardNumber == adminCardNumber) =
      some (defaultAdminAccount "wxyz5678abcd1234") ∧
    (defaultAdminAccount "wxyz5678abcd1234").isAdmin = true ∧
    (defaultAdminAccount "wxyz5678abcd1234").verifyPin "8888" = true := by
  have h := claim_C8 [c1Acct] "wxyz5678abcd1234"
  have h2 := h.2 (by decide)
  exact ⟨h.1, h2.1, h2.2.1, h2.2.2.2⟩

/-! C7: regression prediction with too few transactions. -/

/-- Deposit transaction used by the C7 counterexample (day 20000). -/
def c7Tx : Transaction :=
  { cardNumber := "1234567890123456"
    timestamp := 20000 * 86400
    type := TransactionType.Deposit
    amount := 900
    balanceAfter := 0
    description := "存款"
    targetCardNumber := "" }

/-- Ledger with exactly two deposits: enough for the weighted-average
method, too few for regression. -/
def c7State : AtmState :=
  { repo := { accounts := [c1Acct], diskOk := true }, ledger := [c7Tx, c7Tx] }

/-- Ledger with five same-day deposits: enough transactions for
regression, but only one reconstructed daily-balance point, so the
genuine fallback to the weighted average fires. -/
def c7State5 : AtmState :=
  { repo := { accounts := [c1Acct], diskOk := true },
    ledger := [c7Tx, c7Tx, c7Tx, c7Tx, c7Tx] }

/-- C7 fails as stated: with 2 transactions (fewer than the 5 the
regression needs) the regression method returns the current balance
100, while the weighted-average method returns 102. -/
theorem claim_C7_counterexample :
    findByCardNumber c7State.repo "1234567890123456" = some c1Acct ∧
    (getTransactionsForCard c7State.ledger "1234567890123456").length < 5 ∧
    predictBalanceWithRegression 20000 c7State "1234567890123456" 9 = 100 ∧
    predictBalanceWithWeightedAverage 20000 c7State "1234567890123456" 9 = 102 := by
  decide

/-- C7 (amended): with fewer than 5 transactions for the card,
predictBalanceWithRegression returns the account's current balance
(not the weighted-average prediction); the fallback to the
weighted-average method happens only when the reconstructed
daily-balance series has fewer than 2 points. -/
theorem claim_C7 (today : Int) (st : AtmState) (card : String) (d : Int)
    (a : Account) (hfa : findByCardNumber st.repo card = some a) :
    ((getTransactionsForCard st.ledger card).length < 5 →
      predictBalanceWithRegression today st card d = a.balance)
    ∧ (¬(getTransactionsForCard st.ledger card).length < 5 →
        (buildDailyBalances (sortByTimestamp (getTransactionsForCard st.ledger card))
          a.balance).length < 2 →
        predictBalanceWithRegression today st card d =
          predictBalanceWithWeightedAverage today st card d) := by
  constructor
  · intro hlen
    simp only [predictBalanceWithRegression, hfa]
    rw [if_pos hlen]
  · intro hlen hdaily
    simp only [predictBalanceWithRegression, hfa]
    rw [if_neg hlen, if_pos (by simpa using hdaily)]

theorem claim_C7_witness :
    predictBalanceWithRegression 20000 c7State "1234567890123456" 9 =
      c1Acct.balance ∧
    predictBalanceWithRegression 20000 c7State5 "1234567890123456" 9 =
      predictBalanceWithWeightedAverage 20000 c7State5 "1234567890123456" 9 := by
  have h2 := claim_C7 20000 c7State "1234567890123456" 9 c1Acct (by decide)
  have h5 := claim_C7 20000 c7State5 "1234567890123456" 9 c1Acct (by decide)
  exact ⟨h2.1 (by decide), h5.2 (by decide) (by decide)⟩

end ATM
